import Mathlib

/-!
Verification development for a document extraction pipeline
(loaders / extractor / storage backends / orchestration),
shallowly embedding the Python modules
`file_loaders.py`, `data_extractor.py`, `storage.py`, `processing.py`.

Modelling conventions:
* Python dict values are `Val`; a dict is an association list `Record`,
  with `Record.get` mimicking `dict.get` (first matching key).
* A Python exception is a `PyErr`.  Operations whose exceptions escape to
  the caller return `Option PyErr` paired with the updated state: `some e`
  models the call raising `e`, `none` models a normal return.
* Internal failures of the third-party libraries (fitz, python-docx,
  python-pptx, pdfplumber, file writes, MySQL) are modelled by fault
  injection parameters: a `Bool` ("the library call inside the try block
  raised") or an `Option Nat` ("the n-th INSERT raised a
  mysql.connector.Error").
-/

/-- A Python value as it occurs in the extracted records. -/
inductive Val where
  | str (s : String)
  | int (n : Int)
  | bytes (b : List Nat)
  | table (rows : List (List String))
  | pynone
  deriving DecidableEq, Repr

/-- An extracted record: a Python dict, keys to values. -/
def Record : Type := List (String × Val)

instance : DecidableEq Record := by
  unfold Record
  infer_instance

instance : Repr Record := inferInstanceAs (Repr (List (String × Val)))

/-- `dict.get(key)` / `dict[key]` lookup: first binding of the key, if any. -/
def Record.get : Record → String → Option Val
  | [], _ => none
  | (k, v) :: r, key => if k = key then some v else Record.get r key

/-- Arguments passed to the save operations: either a Python list of
records, or some non-list value (modelled by its printed form). -/
inductive PyArg where
  | list (items : List Record)
  | nonList (txt : String)
  deriving DecidableEq, Repr

/-- The Python exceptions raised by the pipeline's own code. -/
inductive PyErr where
  | valueError (msg : String)
  | runtimeError (msg : String)
  | keyError (key : String)
  deriving DecidableEq, Repr

/-! ## Document models (what the parsing libraries hand back) -/

/-- A page of a fitz (PyMuPDF) document. -/
structure PDFPage where
  text : String
  /-- `page.get_links()`, each link's `link.get('uri')` (may be absent). -/
  links : List (Option String)
  /-- images on the page: extracted bytes and extension. -/
  images : List (List Nat × String)
  deriving DecidableEq, Repr

/-- A fitz (PyMuPDF) document: a sequence of pages. -/
structure PDFDoc where
  pages : List PDFPage
  deriving DecidableEq, Repr

/-- A page as seen by pdfplumber: `page.extract_tables()`. -/
structure PlumberPage where
  tables : List (List (List String))
  deriving DecidableEq, Repr

/-- A run of a python-docx paragraph. -/
structure DocxRun where
  text : String
  /-- truthiness of `run.font.color`. -/
  hasColor : Bool
  deriving DecidableEq, Repr

/-- A python-docx paragraph: its text, style name and runs. -/
structure DocxPara where
  text : String
  style : String
  runs : List DocxRun
  deriving DecidableEq, Repr

/-- A relationship of the docx package part (`doc.part.rels`). -/
structure DocxRel where
  target_ref : String
  blob : List Nat
  content_type : String
  deriving DecidableEq, Repr

/-- A python-docx document: paragraphs, part relationships, tables
(each table already as its rows of cell texts). -/
structure DocxDoc where
  paragraphs : List DocxPara
  rels : List DocxRel
  tables : List (List (List String))
  deriving DecidableEq, Repr

/-- A run of a python-pptx text frame paragraph:
`run.hyperlink.address` when present. -/
structure PPTRun where
  hyperlink_address : Option String
  deriving DecidableEq, Repr

/-- A python-pptx shape.  `text = some s` models `hasattr(shape, "text")`
with value `s`; `image = some (blob, ext)` models a picture shape
(`shape.shape_type == 13`); `table = some rows` models `shape.has_table`. -/
structure PPTShape where
  text : Option String
  has_text_frame : Bool
  paragraphs : List (List PPTRun)
  shape_hyperlink : Option String
  image : Option (List Nat × String)
  table : Option (List (List String))
  deriving DecidableEq, Repr

/-- A python-pptx slide: its shapes. -/
structure PPTSlide where
  shapes : List PPTShape
  deriving DecidableEq, Repr

/-- A python-pptx presentation: its slides. -/
structure PPTPres where
  slides : List PPTSlide
  deriving DecidableEq, Repr

/-! ## file_loaders.py -/

/-- Python's `str.endswith`: suffix test on the character sequence. -/
def pyEndsWith (s suffix : String) : Bool :=
  suffix.data.isSuffixOf s.data

/-- `FileLoader.validate_extension`: raises ValueError unless the path
ends with the expected extension. -/
def validate_extension (file_path expected_ext : String) : Except PyErr Unit :=
  if pyEndsWith file_path expected_ext then Except.ok ()
  else Except.error (PyErr.valueError "Invalid file format.")

/-- Outcome of a loader's `load()`: the returned document (None on any
failure, since `load` catches and logs) and whether the library parser
was invoked at all. -/
structure LoadOutcome (δ : Type) where
  result : Option δ
  parserInvoked : Bool
  deriving DecidableEq, Repr

/-- Common shape of `PDFLoader.load` / `DOCXLoader.load` / `PPTLoader.load`:
validate the extension, then call the library parser (`parse = none`
models the parser raising); every exception is caught, logged and turned
into a `None` result. -/
def loadWith (expected_ext : String) (file_path : String) (parse : Option δ) :
    LoadOutcome δ :=
  match validate_extension file_path expected_ext with
  | Except.error _ => { result := none, parserInvoked := false }
  | Except.ok _ =>
    match parse with
    | some d => { result := some d, parserInvoked := true }
    | none => { result := none, parserInvoked := true }

/-- `PDFLoader.load`: validates `.pdf`, then `fitz.open`. -/
def PDFLoader.load (file_path : String) (parse : Option PDFDoc) : LoadOutcome PDFDoc :=
  loadWith ".pdf" file_path parse

/-- `DOCXLoader.load`: validates `.docx`, then `docx.Document`. -/
def DOCXLoader.load (file_path : String) (parse : Option DocxDoc) : LoadOutcome DocxDoc :=
  loadWith ".docx" file_path parse

/-- `PPTLoader.load`: validates `.pptx`, then `Presentation`. -/
def PPTLoader.load (file_path : String) (parse : Option PPTPres) : LoadOutcome PPTPres :=
  loadWith ".pptx" file_path parse

/-! ## data_extractor.py -/

/-- The loader instance wrapped by a `DataExtractor`, after its `load()`
ran: the per-format document (None when the library parser failed), plus
for PDF the pdfplumber view of the same file (used only by table
extraction) and the file path. `other` stands for a loader of any
unsupported type. -/
inductive Loader where
  | pdf (doc : Option PDFDoc) (plumber : Option (List PlumberPage)) (file_path : String)
  | docx (doc : Option DocxDoc)
  | ppt (pres : Option PPTPres)
  | other
  deriving DecidableEq, Repr

/-- Common shape of the per-format extraction routines: each is a
traversal wrapped in try/except that logs and re-raises a RuntimeError.
`doc = none` models the loader having failed (the attribute access on
None raises inside the try); `fault` models the library raising during
the traversal. -/
def libCall (fault : Bool) (doc : Option α) (msg : String) (f : α → List Record) :
    Except PyErr (List Record) :=
  match doc with
  | none => Except.error (PyErr.runtimeError msg)
  | some d =>
    if fault then Except.error (PyErr.runtimeError msg) else Except.ok (f d)

/-- Records built by `_extract_pdf_text`: one per page. -/
def pdfTextRecords (doc : PDFDoc) : List Record :=
  doc.pages.enum.map fun pg =>
    [("page_number", Val.int (pg.1 + 1)), ("text", Val.str pg.2.text)]

/-- Records built by `_extract_docx_text`: one per paragraph. -/
def docxTextRecords (doc : DocxDoc) : List Record :=
  doc.paragraphs.map fun p => [("text", Val.str p.text), ("style", Val.str p.style)]

/-- Records built by `_extract_ppt_text`: one per slide, the texts of its
shapes joined by newlines. -/
def pptTextRecords (pres : PPTPres) : List Record :=
  pres.slides.enum.map fun sl =>
    [("slide_number", Val.int (sl.1 + 1)),
     ("text", Val.str (String.intercalate "\n" (sl.2.shapes.filterMap PPTShape.text)))]

/-- Records built by `_extract_pdf_links`: one per link of each page,
the url being `link.get('uri')` (None when absent). -/
def pdfLinkRecords (doc : PDFDoc) : List Record :=
  doc.pages.enum.bind fun pg =>
    pg.2.links.map fun uri =>
      [("page_number", Val.int (pg.1 + 1)),
       ("url", match uri with | some u => Val.str u | none => Val.pynone)]

/-- Records built by `_extract_docx_links`: runs with a font colour whose
text starts with http. -/
def docxLinkRecords (doc : DocxDoc) : List Record :=
  doc.paragraphs.enum.bind fun pp =>
    pp.2.runs.filterMap fun run =>
      if run.hasColor && run.text.startsWith "http" then
        some [("paragraph_number", Val.int (pp.1 + 1)),
              ("url", Val.str run.text), ("style", Val.str pp.2.style)]
      else none

/-- Records built by `_extract_ppt_links`: runs of text frames with a
hyperlink address, else the shape's own hyperlink. -/
def pptLinkRecords (pres : PPTPres) : List Record :=
  pres.slides.enum.bind fun sl =>
    sl.2.shapes.bind fun shape =>
      if shape.has_text_frame then
        shape.paragraphs.bind fun para =>
          para.filterMap fun run =>
            match run.hyperlink_address with
            | some addr => some [("slide_number", Val.int (sl.1 + 1)), ("url", Val.str addr)]
            | none => none
      else
        match shape.shape_hyperlink with
        | some addr => [[("slide_number", Val.int (sl.1 + 1)), ("url", Val.str addr)]]
        | none => []

/-- Records built by `_extract_pdf_images`: one per image of each page. -/
def pdfImageRecords (doc : PDFDoc) : List Record :=
  doc.pages.enum.bind fun pg =>
    pg.2.images.map fun im =>
      [("page_number", Val.int (pg.1 + 1)),
       ("image_data", Val.bytes im.1), ("image_extension", Val.str im.2)]

/-- Bool test for `needle in hay` on character lists. -/
def charsContain (needle : List Char) : List Char → Bool
  | [] => needle.isPrefixOf []
  | c :: rest => needle.isPrefixOf (c :: rest) || charsContain needle rest

/-- Python's `needle in hay` substring test. -/
def strContains (hay needle : String) : Bool :=
  charsContain needle.toList hay.toList

/-- Records built by `_extract_docx_images`: part relationships whose
target contains "image"; the extension is the last component of the
content type. -/
def docxImageRecords (doc : DocxDoc) : List Record :=
  doc.rels.filterMap fun rel =>
    if strContains rel.target_ref "image" then
      some [("image_data", Val.bytes rel.blob),
            ("image_extension", Val.str ((rel.content_type.splitOn "/").getLastD ""))]
    else none

/-- Records built by `_extract_ppt_images`: picture shapes of each slide. -/
def pptImageRecords (pres : PPTPres) : List Record :=
  pres.slides.enum.bind fun sl =>
    sl.2.shapes.filterMap fun shape =>
      match shape.image with
      | some im =>
        some [("slide_number", Val.int (sl.1 + 1)),
              ("image_data", Val.bytes im.1), ("image_extension", Val.str im.2)]
      | none => none

/-- Records built by `_extract_pdf_tables` (via pdfplumber): one per
table of each page. -/
def pdfTableRecords (plumber : List PlumberPage) : List Record :=
  plumber.enum.bind fun pg =>
    pg.2.tables.map fun t =>
      [("page_number", Val.int (pg.1 + 1)), ("table", Val.table t)]

/-- Records built by `_extract_docx_tables`: one per table. -/
def docxTableRecords (doc : DocxDoc) : List Record :=
  doc.tables.enum.map fun tb =>
    [("table_number", Val.int (tb.1 + 1)), ("table", Val.table tb.2)]

/-- Records built by `_extract_ppt_tables`: shapes with a table. -/
def pptTableRecords (pres : PPTPres) : List Record :=
  pres.slides.enum.bind fun sl =>
    sl.2.shapes.filterMap fun shape =>
      match shape.table with
      | some rows =>
        some [("slide_number", Val.int (sl.1 + 1)), ("table", Val.table rows)]
      | none => none

/-- `DataExtractor._extract_text_for_loader`: dispatch on the loader type. -/
def extract_text_for_loader (fault : Bool) : Loader → Except PyErr (List Record)
  | Loader.pdf doc _ _ => libCall fault doc "Error extracting text from PDF" pdfTextRecords
  | Loader.docx doc => libCall fault doc "Error extracting text from DOCX" docxTextRecords
  | Loader.ppt pres => libCall fault pres "Error extracting text from PPTX" pptTextRecords
  | Loader.other => Except.error (PyErr.valueError "Unsupported file type for text extraction.")

/-- `DataExtractor._extract_links_for_loader`: dispatch on the loader type. -/
def extract_links_for_loader (fault : Bool) : Loader → Except PyErr (List Record)
  | Loader.pdf doc _ _ => libCall fault doc "Error extracting links from PDF" pdfLinkRecords
  | Loader.docx doc => libCall fault doc "Error extracting links from DOCX" docxLinkRecords
  | Loader.ppt pres => libCall fault pres "Error extracting links from PPTX" pptLinkRecords
  | Loader.other => Except.error (PyErr.valueError "Unsupported file type for link extraction.")

/-- `DataExtractor._extract_images_for_loader`: dispatch on the loader type. -/
def extract_images_for_loader (fault : Bool) : Loader → Except PyErr (List Record)
  | Loader.pdf doc _ _ => libCall fault doc "Error extracting images from PDF" pdfImageRecords
  | Loader.docx doc => libCall fault doc "Error extracting images from DOCX" docxImageRecords
  | Loader.ppt pres => libCall fault pres "Error extracting images from PPTX" pptImageRecords
  | Loader.other => Except.error (PyErr.valueError "Unsupported file type for image extraction.")

/-- `DataExtractor._extract_tables_for_loader`: dispatch on the loader
type (PDF tables go through pdfplumber, not the fitz document). -/
def extract_tables_for_loader (fault : Bool) : Loader → Except PyErr (List Record)
  | Loader.pdf _ plumber _ => libCall fault plumber "Error extracting tables from PDF" pdfTableRecords
  | Loader.docx doc => libCall fault doc "Error extracting tables from DOCX" docxTableRecords
  | Loader.ppt pres => libCall fault pres "Error extracting tables from PPTX" pptTableRecords
  | Loader.other => Except.error (PyErr.valueError "Unsupported file type for table extraction.")

/-- `DataExtractor._extract_generic`: run the routine; any exception is
logged and re-raised as a RuntimeError. -/
def extract_generic (m : Except PyErr (List Record)) : Except PyErr (List Record) :=
  match m with
  | Except.ok v => Except.ok v
  | Except.error _ => Except.error (PyErr.runtimeError "Error during extraction")

/-- `DataExtractor.extract_text`. -/
def DataExtractor.extract_text (fault : Bool) (l : Loader) : Except PyErr (List Record) :=
  extract_generic (extract_text_for_loader fault l)

/-- `DataExtractor.extract_links`. -/
def DataExtractor.extract_links (fault : Bool) (l : Loader) : Except PyErr (List Record) :=
  extract_generic (extract_links_for_loader fault l)

/-- `DataExtractor.extract_images`. -/
def DataExtractor.extract_images (fault : Bool) (l : Loader) : Except PyErr (List Record) :=
  extract_generic (extract_images_for_loader fault l)

/-- `DataExtractor.extract_tables`. -/
def DataExtractor.extract_tables (fault : Bool) (l : Loader) : Except PyErr (List Record) :=
  extract_generic (extract_tables_for_loader fault l)

/-! ## storage.py : rendering helpers -/

/-- Rendering of one table row inside Python's `str()` of a table. -/
def renderRow (r : List String) : String :=
  "[" ++ String.intercalate ", " r ++ "]"

/-- Abstraction of Python's `str()` on a list of table rows
(quoting of the cells is omitted). -/
def renderTable (t : List (List String)) : String :=
  "[" ++ String.intercalate ", " (t.map renderRow) ++ "]"

/-- Abstraction of Python's `str()` on a `Val`. -/
def Val.render : Val → String
  | Val.str s => s
  | Val.int n => toString n
  | Val.bytes b => toString b.length ++ " bytes"
  | Val.table t => renderTable t
  | Val.pynone => "None"

/-- The key/value parts of Python's `str()` on a dict. -/
def Record.renderParts : Record → List String
  | [] => []
  | (k, v) :: r => (k ++ ": " ++ v.render) :: Record.renderParts r

/-- Abstraction of Python's `str()` on a dict (braces omitted). -/
def Record.render (r : Record) : String :=
  String.intercalate "; " r.renderParts

/-! ## storage.py : FileStorage -/

/-- The file-system sink: text files written and binary (image) files
written, in write order. -/
structure FSState where
  files : List (String × String)
  binfiles : List (String × List Nat)
  deriving DecidableEq, Repr

/-- The content `FileStorage.save_text` writes: one line per entry. -/
def textFileContent (text_data : List Record) : String :=
  String.join (text_data.map fun entry => entry.render ++ "\n")

/-- `FileStorage.save_text`: type-check the argument, then write one line
per entry to extracted_text.txt; a write error is logged and suppressed
(`fault` models the write raising). -/
def FileStorage.save_text (fault : Bool) (st : FSState) (arg : PyArg) :
    Option PyErr × FSState :=
  match arg with
  | PyArg.nonList _ => (some (PyErr.valueError "text_data must be a list."), st)
  | PyArg.list text_data =>
    if fault then (none, st)
    else (none, { st with files := st.files ++
      [("extracted_text.txt", textFileContent text_data)] })

/-- The line `FileStorage.save_links` writes for one link record:
page/slide/paragraph location, then the url (default No URL). -/
def linkLine (link : Record) : String :=
  let location :=
    match link.get "page_number" with
    | some v => "Page " ++ v.render
    | none =>
      match link.get "slide_number" with
      | some v => "Slide " ++ v.render
      | none =>
        match link.get "paragraph_number" with
        | some v => "Paragraph " ++ v.render
        | none => ""
  let url :=
    match link.get "url" with
    | some v => v.render
    | none => "No URL"
  location ++ " -> " ++ url ++ "\n"

/-- The content `FileStorage.save_links` writes: one line per link. -/
def linksFileContent (links_data : List Record) : String :=
  String.join (links_data.map linkLine)

/-- `FileStorage.save_links`: type-check, then write one line per link to
extracted_links.txt; write errors logged and suppressed. -/
def FileStorage.save_links (fault : Bool) (st : FSState) (arg : PyArg) :
    Option PyErr × FSState :=
  match arg with
  | PyArg.nonList _ => (some (PyErr.valueError "links_data must be a list."), st)
  | PyArg.list links_data =>
    if fault then (none, st)
    else (none, { st with files := st.files ++
      [("extracted_links.txt", linksFileContent links_data)] })

/-- `image.get("image_extension", "png")`, rendered for the file name. -/
def imageExt (image : Record) : String :=
  match image.get "image_extension" with
  | some v => v.render
  | none => "png"

/-- Metadata text `FileStorage.save_images` writes next to image `i`. -/
def imageMetaContent (i : Nat) (image : Record) (ext : String) (size : Nat) : String :=
  "Image " ++ toString (i + 1) ++ " Metadata\n" ++
  (match image.get "page_number" with
   | some v => "Extracted from PDF - Page " ++ v.render ++ "\n"
   | none =>
     match image.get "slide_number" with
     | some v => "Extracted from PowerPoint - Slide " ++ v.render ++ "\n"
     | none => "Extracted from Word document\n") ++
  "Image Extension: " ++ ext ++ "\n" ++
  "Image Size: " ++ toString size ++ " bytes\n"

/-- The binary file and metadata file written for each image record from
index `i` on; `none` when some record lacks image bytes (the KeyError
inside the try aborts the loop; every extractor-produced record carries
its bytes, so the partial writes of the aborted real loop are not
observable on the pipeline's own inputs). -/
def buildImageFilesFrom (i : Nat) : List Record →
    Option (List ((String × List Nat) × (String × String)))
  | [] => some []
  | image :: rest =>
    match image.get "image_data" with
    | some (Val.bytes b) =>
      match buildImageFilesFrom (i + 1) rest with
      | some entries =>
        some ((("image_" ++ toString i ++ "." ++ imageExt image, b),
               ("image_" ++ toString i ++ "_metadata.txt",
                imageMetaContent i image (imageExt image) b.length)) :: entries)
      | none => none
    | _ => none

/-- The image files `FileStorage.save_images` writes for a record list. -/
def buildImageFiles (images_data : List Record) :
    Option (List ((String × List Nat) × (String × String))) :=
  buildImageFilesFrom 0 images_data

/-- `FileStorage.save_images`: type-check, then write each image's bytes
and a metadata file; any error inside the try (missing key, failed
write) is logged and suppressed. -/
def FileStorage.save_images (fault : Bool) (st : FSState) (arg : PyArg) :
    Option PyErr × FSState :=
  match arg with
  | PyArg.nonList _ => (some (PyErr.valueError "images_data must be a list."), st)
  | PyArg.list images_data =>
    match buildImageFiles images_data with
    | none => (none, st)
    | some entries =>
      if fault then (none, st)
      else (none, { st with
        binfiles := st.binfiles ++ entries.map Prod.fst,
        files := st.files ++ entries.map Prod.snd })

/-- `table.get("table", [])`, as rows of cells. -/
def tableRowsOf (table : Record) : List (List String) :=
  match table.get "table" with
  | some (Val.table rows) => rows
  | _ => []

/-- `table.get("page_number", table.get("slide_number", "unknown_location"))`,
rendered for the file name. -/
def tableLoc (table : Record) : String :=
  match table.get "page_number" with
  | some v => v.render
  | none =>
    match table.get "slide_number" with
    | some v => v.render
    | none => "unknown_location"

/-- The CSV text written for a table's rows. -/
def csvContent (rows : List (List String)) : String :=
  String.join (rows.map fun r => String.intercalate "," r ++ "\n")

/-- Metadata text `FileStorage.save_tables` writes next to table `i`. -/
def tableMetaContent (i : Nat) (table : Record) (rows : List (List String)) : String :=
  "Table " ++ toString (i + 1) ++ " Metadata\n" ++
  (match table.get "page_number" with
   | some v => "Extracted from PDF - Page " ++ v.render ++ "\n"
   | none =>
     match table.get "slide_number" with
     | some v => "Extracted from PowerPoint - Slide " ++ v.render ++ "\n"
     | none => "Extracted from Word document\n") ++
  "Number of rows: " ++ toString rows.length ++ "\n" ++
  (match rows with
   | [] => "Number of columns: 0\n"
   | r0 :: _ => "Number of columns: " ++ toString r0.length ++ "\n")

/-- The CSV file and metadata file written for each table record. -/
def tableFiles (tables_data : List Record) : List (String × String) :=
  tables_data.enum.bind fun p =>
    [("table_" ++ toString p.1 ++ "_location_" ++ tableLoc p.2 ++ ".csv",
      csvContent (tableRowsOf p.2)),
     ("table_" ++ toString p.1 ++ "_location_" ++ tableLoc p.2 ++ "_metadata.txt",
      tableMetaContent p.1 p.2 (tableRowsOf p.2))]

/-- `FileStorage.save_tables`: type-check, then write a CSV and a
metadata file per table; write errors logged and suppressed. -/
def FileStorage.save_tables (fault : Bool) (st : FSState) (arg : PyArg) :
    Option PyErr × FSState :=
  match arg with
  | PyArg.nonList _ => (some (PyErr.valueError "tables_data must be a list."), st)
  | PyArg.list tables_data =>
    if fault then (none, st)
    else (none, { st with files := st.files ++ tableFiles tables_data })

/-! ## storage.py : MySQLStorage

The connection is modelled transactionally: `execute` of an INSERT adds
the row to the pending part of its table, `commit` moves pending rows to
the committed part, `rollback` drops them.  `failAt = some k` models the
k-th INSERT of a call raising `mysql.connector.Error`. -/

/-- One database table with its committed rows and the rows inserted in
the current (uncommitted) transaction. -/
structure DBTable (ρ : Type) where
  committed : List ρ
  pending : List ρ
  deriving DecidableEq, Repr

/-- `cursor.execute` of an INSERT: the row joins the open transaction. -/
def DBTable.execute (t : DBTable ρ) (r : ρ) : DBTable ρ :=
  { t with pending := t.pending ++ [r] }

/-- `connection.commit`. -/
def DBTable.commit (t : DBTable ρ) : DBTable ρ :=
  { committed := t.committed ++ t.pending, pending := [] }

/-- `connection.rollback`. -/
def DBTable.rollback (t : DBTable ρ) : DBTable ρ :=
  { committed := t.committed, pending := [] }

/-- A row of text_data: content, page_number (nullable). -/
abbrev TextRow : Type := Val × Option Val

/-- A row of images_data: image_data, image_extension, page_number. -/
abbrev ImageRow : Type := Val × Val × Option Val

/-- A row of tables_data: table_data (stringified), page_number. -/
abbrev TableRow : Type := String × Option Val

/-- A row of links_data: url, page_number. -/
abbrev LinkRow : Type := Val × Option Val

/-- The MySQL database: the four tables created by `create_tables`. -/
structure MySQLConn where
  text_data : DBTable TextRow
  images_data : DBTable ImageRow
  tables_data : DBTable TableRow
  links_data : DBTable LinkRow
  deriving DecidableEq, Repr

/-- Insert the rows one by one starting at INSERT index `k`; on a
`mysql.connector.Error` (index hits `failAt`) return the connection
state at the point of failure. -/
def insertFrom (failAt : Option Nat) (k : Nat) (rows : List ρ) (t : DBTable ρ) :
    Except (DBTable ρ) (DBTable ρ) :=
  match rows with
  | [] => Except.ok t
  | r :: rs =>
    if failAt = some k then Except.error t
    else insertFrom failAt (k + 1) rs (t.execute r)

/-- The row `MySQLStorage.save_text` inserts for one record:
`(item.get("text", ""), item.get("slide_number", None))`. -/
def mysqlTextRow (item : Record) : TextRow :=
  ((item.get "text").getD (Val.str ""), item.get "slide_number")

/-- The row `MySQLStorage.save_links` inserts for one record:
`(item.get("url", ""), item.get("page_number", None))`. -/
def mysqlLinkRow (item : Record) : LinkRow :=
  ((item.get "url").getD (Val.str ""), item.get "page_number")

/-- The row `MySQLStorage.save_images` inserts for one record (assuming
the two mandatory keys are present): image bytes, extension,
`item.get("page_number", None)`. -/
def mysqlImageRow (item : Record) : ImageRow :=
  ((item.get "image_data").getD (Val.str ""),
   (item.get "image_extension").getD (Val.str ""),
   item.get "page_number")

/-- The row `MySQLStorage.save_tables` inserts for one record (assuming
the table key is present): `str(item['table'])`,
`item.get("page_number", None)`. -/
def mysqlTableRow (item : Record) : TableRow :=
  (((item.get "table").getD Val.pynone).render, item.get "page_number")

/-- `MySQLStorage.save_text`: type-check, insert every record's row,
commit; a `mysql.connector.Error` is caught, logged, rolled back. -/
def MySQLStorage.save_text (failAt : Option Nat) (conn : MySQLConn) (arg : PyArg) :
    Option PyErr × MySQLConn :=
  match arg with
  | PyArg.nonList _ => (some (PyErr.valueError "text_data must be a list."), conn)
  | PyArg.list items =>
    match insertFrom failAt 0 (items.map mysqlTextRow) conn.text_data with
    | Except.ok t => (none, { conn with text_data := t.commit })
    | Except.error t => (none, { conn with text_data := t.rollback })

/-- `MySQLStorage.save_links`: type-check, insert every record's row,
commit; a `mysql.connector.Error` is caught, logged, rolled back. -/
def MySQLStorage.save_links (failAt : Option Nat) (conn : MySQLConn) (arg : PyArg) :
    Option PyErr × MySQLConn :=
  match arg with
  | PyArg.nonList _ => (some (PyErr.valueError "links_data must be a list."), conn)
  | PyArg.list items =>
    match insertFrom failAt 0 (items.map mysqlLinkRow) conn.links_data with
    | Except.ok t => (none, { conn with links_data := t.commit })
    | Except.error t => (none, { conn with links_data := t.rollback })

/-- The image-row comprehension of `MySQLStorage.save_images`:
`item["image_data"]` / `item["image_extension"]` raise KeyError when
missing, before any INSERT runs. -/
def buildImageRows : List Record → Except PyErr (List ImageRow)
  | [] => Except.ok []
  | item :: rest =>
    match item.get "image_data" with
    | none => Except.error (PyErr.keyError "image_data")
    | some d =>
      match item.get "image_extension" with
      | none => Except.error (PyErr.keyError "image_extension")
      | some e =>
        match buildImageRows rest with
        | Except.ok rows => Except.ok ((d, e, item.get "page_number") :: rows)
        | Except.error err => Except.error err

/-- `MySQLStorage.save_images`: type-check, build all rows (a KeyError
here propagates to the caller), insert them via executemany, commit;
a `mysql.connector.Error` is caught, logged, rolled back. -/
def MySQLStorage.save_images (failAt : Option Nat) (conn : MySQLConn) (arg : PyArg) :
    Option PyErr × MySQLConn :=
  match arg with
  | PyArg.nonList _ => (some (PyErr.valueError "images_data must be a list."), conn)
  | PyArg.list items =>
    match buildImageRows items with
    | Except.error e => (some e, conn)
    | Except.ok rows =>
      match insertFrom failAt 0 rows conn.images_data with
      | Except.ok t => (none, { conn with images_data := t.commit })
      | Except.error t => (none, { conn with images_data := t.rollback })

/-- The per-item loop of `MySQLStorage.save_tables`:
`str(item['table'])` raises KeyError when the key is missing (that
exception is NOT a `mysql.connector.Error`, so it propagates, leaving
the transaction open); an INSERT hitting `failAt` raises a caught
`mysql.connector.Error`. -/
def tablesLoop (failAt : Option Nat) (k : Nat) (items : List Record)
    (t : DBTable TableRow) :
    Except (Option PyErr × DBTable TableRow) (DBTable TableRow) :=
  match items with
  | [] => Except.ok t
  | item :: rest =>
    match item.get "table" with
    | none => Except.error (some (PyErr.keyError "table"), t)
    | some v =>
      if failAt = some k then Except.error (none, t)
      else tablesLoop failAt (k + 1) rest (t.execute (v.render, item.get "page_number"))

/-- `MySQLStorage.save_tables`: type-check, insert a stringified row per
record, commit; a `mysql.connector.Error` is rolled back, a KeyError
propagates with the transaction left open. -/
def MySQLStorage.save_tables (failAt : Option Nat) (conn : MySQLConn) (arg : PyArg) :
    Option PyErr × MySQLConn :=
  match arg with
  | PyArg.nonList _ => (some (PyErr.valueError "tables_data must be a list."), conn)
  | PyArg.list items =>
    match tablesLoop failAt 0 items conn.tables_data with
    | Except.ok t => (none, { conn with tables_data := t.commit })
    | Except.error (some e, t) => (some e, { conn with tables_data := t })
    | Except.error (none, t) => (none, { conn with tables_data := t.rollback })

/-! ## storage.py : the common Storage interface -/

/-- The abstract `Storage` base class: one save operation per extracted
data category, each taking the backend state and the record list. -/
structure Storage (σ : Type) where
  save_text : σ → PyArg → Option PyErr × σ
  save_images : σ → PyArg → Option PyErr × σ
  save_tables : σ → PyArg → Option PyErr × σ
  save_links : σ → PyArg → Option PyErr × σ

/-- `FileStorage` as an implementation of the Storage interface. -/
def fileBackend (fault : Bool) : Storage FSState :=
  { save_text := FileStorage.save_text fault
    save_images := FileStorage.save_images fault
    save_tables := FileStorage.save_tables fault
    save_links := FileStorage.save_links fault }

/-- INSERT fault injection for the four MySQL save operations. -/
structure DBFaults where
  text : Option Nat
  images : Option Nat
  tables : Option Nat
  links : Option Nat
  deriving DecidableEq, Repr

/-- `MySQLStorage` as an implementation of the Storage interface. -/
def mysqlBackend (f : DBFaults) : Storage MySQLConn :=
  { save_text := MySQLStorage.save_text f.text
    save_images := MySQLStorage.save_images f.images
    save_tables := MySQLStorage.save_tables f.tables
    save_links := MySQLStorage.save_links f.links }

/-! ## processing.py -/

/-- Fault injection for one `process_file` run: a library fault inside
each extraction routine, a write fault in the file sink, a MySQL
connection failure, and INSERT faults per database save. -/
structure Faults where
  text : Bool
  links : Bool
  images : Bool
  tables : Bool
  fsFault : Bool
  dbConnect : Bool
  db : DBFaults
  deriving DecidableEq, Repr

/-- The observable steps of `Processing.process_file`, in invocation
order. -/
inductive Event where
  | load
  | extractText
  | extractLinks
  | extractImages
  | extractTables
  | fsSaveText
  | fsSaveLinks
  | fsSaveImages
  | fsSaveTables
  | dbSaveText
  | dbSaveImages
  | dbSaveTables
  | dbSaveLinks
  | dbClose
  deriving DecidableEq, Repr

/-- Result of one `process_file` run: the invocation trace, the file
sink, the database, and the failure message printed by the outer
handler (None when processing succeeded). -/
structure ProcResult where
  trace : List Event
  fs : FSState
  db : MySQLConn
  failure : Option String
  deriving DecidableEq, Repr

/-- The extraction block of `process_file` (lines 38-44): the four
`extractor.extract_*` calls in order; the first exception aborts the
block and is re-raised as "Data extraction failed". -/
def extractAll (f : Faults) (l : Loader) :
    List Event × Except PyErr (List Record × List Record × List Record × List Record) :=
  match DataExtractor.extract_text f.text l with
  | Except.error e => ([Event.extractText], Except.error e)
  | Except.ok text_data =>
    match DataExtractor.extract_links f.links l with
    | Except.error e => ([Event.extractText, Event.extractLinks], Except.error e)
    | Except.ok link_data =>
      match DataExtractor.extract_images f.images l with
      | Except.error e =>
        ([Event.extractText, Event.extractLinks, Event.extractImages], Except.error e)
      | Except.ok images_data =>
        match DataExtractor.extract_tables f.tables l with
        | Except.error e =>
          ([Event.extractText, Event.extractLinks, Event.extractImages,
            Event.extractTables], Except.error e)
        | Except.ok tables_data =>
          ([Event.extractText, Event.extractLinks, Event.extractImages,
            Event.extractTables],
           Except.ok (text_data, link_data, images_data, tables_data))

/-- The file-storage block of `process_file` (lines 47-54): a fresh
`FileStorage` on the recreated output folder, then save text, links,
images, tables; the first exception aborts the block. -/
def fsStage (fault : Bool)
    (text_data link_data images_data tables_data : List Record) :
    List Event × Option PyErr × FSState :=
  let fs0 : FSState := { files := [], binfiles := [] }
  let r1 := FileStorage.save_text fault fs0 (PyArg.list text_data)
  match r1 with
  | (some e, fs1) => ([Event.fsSaveText], some e, fs1)
  | (none, fs1) =>
    let r2 := FileStorage.save_links fault fs1 (PyArg.list link_data)
    match r2 with
    | (some e, fs2) => ([Event.fsSaveText, Event.fsSaveLinks], some e, fs2)
    | (none, fs2) =>
      let r3 := FileStorage.save_images fault fs2 (PyArg.list images_data)
      match r3 with
      | (some e, fs3) =>
        ([Event.fsSaveText, Event.fsSaveLinks, Event.fsSaveImages], some e, fs3)
      | (none, fs3) =>
        let r4 := FileStorage.save_tables fault fs3 (PyArg.list tables_data)
        match r4 with
        | (some e, fs4) =>
          ([Event.fsSaveText, Event.fsSaveLinks, Event.fsSaveImages,
            Event.fsSaveTables], some e, fs4)
        | (none, fs4) =>
          ([Event.fsSaveText, Event.fsSaveLinks, Event.fsSaveImages,
            Event.fsSaveTables], none, fs4)

/-- The MySQL block of `process_file` (lines 57-63) after a successful
connection: save text, images, tables, links (in that order), then
close; the first exception aborts the block. -/
def dbStage (f : DBFaults) (db0 : MySQLConn)
    (text_data link_data images_data tables_data : List Record) :
    List Event × Option PyErr × MySQLConn :=
  let r1 := MySQLStorage.save_text f.text db0 (PyArg.list text_data)
  match r1 with
  | (some e, db1) => ([Event.dbSaveText], some e, db1)
  | (none, db1) =>
    let r2 := MySQLStorage.save_images f.images db1 (PyArg.list images_data)
    match r2 with
    | (some e, db2) => ([Event.dbSaveText, Event.dbSaveImages], some e, db2)
    | (none, db2) =>
      let r3 := MySQLStorage.save_tables f.tables db2 (PyArg.list tables_data)
      match r3 with
      | (some e, db3) =>
        ([Event.dbSaveText, Event.dbSaveImages, Event.dbSaveTables], some e, db3)
      | (none, db3) =>
        let r4 := MySQLStorage.save_links f.links db3 (PyArg.list link_data)
        match r4 with
        | (some e, db4) =>
          ([Event.dbSaveText, Event.dbSaveImages, Event.dbSaveTables,
            Event.dbSaveLinks], some e, db4)
        | (none, db4) =>
          ([Event.dbSaveText, Event.dbSaveImages, Event.dbSaveTables,
            Event.dbSaveLinks, Event.dbClose], none, db4)

/-- `Processing.process_file`: wipe and recreate the output folder,
construct the loader (its `load` runs in `DataExtractor.__init__`),
extract the four categories, save them to file storage, then to MySQL;
each block's failure is re-raised and the outer handler prints it. -/
def process_file (f : Faults) (l : Loader) (db0 : MySQLConn) : ProcResult :=
  let fsEmpty : FSState := { files := [], binfiles := [] }
  match extractAll f l with
  | (evs, Except.error _) =>
    { trace := Event.load :: evs, fs := fsEmpty, db := db0,
      failure := some "Data extraction failed" }
  | (evs, Except.ok (text_data, link_data, images_data, tables_data)) =>
    match fsStage f.fsFault text_data link_data images_data tables_data with
    | (fevs, some _, fs1) =>
      { trace := Event.load :: (evs ++ fevs), fs := fs1, db := db0,
        failure := some "Failed to save data to file storage" }
    | (fevs, none, fs1) =>
      if f.dbConnect then
        { trace := Event.load :: (evs ++ fevs), fs := fs1, db := db0,
          failure := some "Failed to save data to MySQL storage" }
      else
        match dbStage f.db db0 text_data link_data images_data tables_data with
        | (devs, some _, db1) =>
          { trace := Event.load :: (evs ++ fevs ++ devs), fs := fs1, db := db1,
            failure := some "Failed to save data to MySQL storage" }
        | (devs, none, db1) =>
          { trace := Event.load :: (evs ++ fevs ++ devs), fs := fs1, db := db1,
            failure := none }

/-- No injected faults: every library call and every INSERT succeeds. -/
def noFaults : Faults :=
  { text := false, links := false, images := false, tables := false,
    fsFault := false, dbConnect := false,
    db := { text := none, images := none, tables := none, links := none } }

/-! ## Support definitions for the statements -/

/-- Whether `failAt` designates one of `n` INSERT indices starting at `k`:
the condition under which a batch of `n` INSERTs raises. -/
def failsIn (failAt : Option Nat) (k n : Nat) : Bool :=
  match failAt with
  | none => false
  | some j => decide (k ≤ j) && decide (j < k + n)

/-- Whether the wrapped loader is one of the three supported formats and
its library parser succeeded. -/
def Loader.loadedb : Loader → Bool
  | Loader.pdf (some _) (some _) _ => true
  | Loader.docx (some _) => true
  | Loader.ppt (some _) => true
  | _ => false

/-- The text records a loaded loader yields. -/
def textOf : Loader → List Record
  | Loader.pdf (some d) _ _ => pdfTextRecords d
  | Loader.docx (some d) => docxTextRecords d
  | Loader.ppt (some p) => pptTextRecords p
  | _ => []

/-- The link records a loaded loader yields. -/
def linksOf : Loader → List Record
  | Loader.pdf (some d) _ _ => pdfLinkRecords d
  | Loader.docx (some d) => docxLinkRecords d
  | Loader.ppt (some p) => pptLinkRecords p
  | _ => []

/-- The image records a loaded loader yields. -/
def imagesOf : Loader → List Record
  | Loader.pdf (some d) _ _ => pdfImageRecords d
  | Loader.docx (some d) => docxImageRecords d
  | Loader.ppt (some p) => pptImageRecords p
  | _ => []

/-- The table records a loaded loader yields. -/
def tablesOf : Loader → List Record
  | Loader.pdf _ (some pl) _ => pdfTableRecords pl
  | Loader.docx (some d) => docxTableRecords d
  | Loader.ppt (some p) => pptTableRecords p
  | _ => []

/-- The full invocation order of a fault-free `process_file` run. -/
def fullTrace : List Event :=
  [Event.load,
   Event.extractText, Event.extractLinks, Event.extractImages, Event.extractTables,
   Event.fsSaveText, Event.fsSaveLinks, Event.fsSaveImages, Event.fsSaveTables,
   Event.dbSaveText, Event.dbSaveImages, Event.dbSaveTables, Event.dbSaveLinks,
   Event.dbClose]

/-! ## Lemmas about the transaction loop -/

lemma DBTable.execute_committed (t : DBTable ρ) (r : ρ) :
    (t.execute r).committed = t.committed := rfl

lemma insertFrom_error_committed {failAt : Option Nat} :
    ∀ {rows : List ρ} {k : Nat} {t t' : DBTable ρ},
      insertFrom failAt k rows t = Except.error t' → t'.committed = t.committed := by
  intro rows
  induction rows with
  | nil => intro k t t' h; simp [insertFrom] at h
  | cons r rs ih =>
    intro k t t' h
    unfold insertFrom at h
    by_cases hk : failAt = some k
    · rw [if_pos hk] at h
      cases h
      rfl
    · rw [if_neg hk] at h
      exact (ih h).trans rfl

lemma insertFrom_ok_result {failAt : Option Nat} :
    ∀ {rows : List ρ} {k : Nat} {t t' : DBTable ρ},
      insertFrom failAt k rows t = Except.ok t' →
      t' = { t with pending := t.pending ++ rows } := by
  intro rows
  induction rows with
  | nil => intro k t t' h; cases h; simp
  | cons r rs ih =>
    intro k t t' h
    unfold insertFrom at h
    by_cases hk : failAt = some k
    · rw [if_pos hk] at h
      cases h
    · rw [if_neg hk] at h
      have := ih h
      simp only [DBTable.execute] at this
      simpa [List.append_assoc] using this

lemma failsIn_some_iff {j k n : Nat} :
    failsIn (some j) k n = false ↔ (j < k ∨ k + n ≤ j) := by
  simp [failsIn]
  omega

lemma insertFrom_ok {failAt : Option Nat} :
    ∀ {rows : List ρ} {k : Nat} (t : DBTable ρ),
      failsIn failAt k rows.length = false →
      insertFrom failAt k rows t = Except.ok { t with pending := t.pending ++ rows } := by
  intro rows
  induction rows with
  | nil => intro k t _; simp [insertFrom]
  | cons r rs ih =>
    intro k t h
    unfold insertFrom
    by_cases hk : failAt = some k
    · exfalso
      subst hk
      rw [failsIn_some_iff] at h
      simp only [List.length_cons] at h
      omega
    · rw [if_neg hk]
      have h' : failsIn failAt (k + 1) rs.length = false := by
        cases failAt with
        | none => rfl
        | some j =>
          have hjk : j ≠ k := fun hjk => hk (congrArg some hjk)
          rw [failsIn_some_iff] at h ⊢
          simp only [List.length_cons] at h
          omega
      rw [ih (t.execute r) h']
      simp [DBTable.execute, List.append_assoc]

lemma failsIn_some_true_iff {j k n : Nat} :
    failsIn (some j) k n = true ↔ (k ≤ j ∧ j < k + n) := by
  simp [failsIn]

lemma insertFrom_err {failAt : Option Nat} :
    ∀ {rows : List ρ} {k : Nat} (t : DBTable ρ),
      failsIn failAt k rows.length = true →
      ∃ t', insertFrom failAt k rows t = Except.error t' := by
  intro rows
  induction rows with
  | nil =>
    intro k t h
    cases failAt with
    | none => simp [failsIn] at h
    | some j =>
      rw [failsIn_some_true_iff] at h
      simp at h
      omega
  | cons r rs ih =>
    intro k t h
    by_cases hk : failAt = some k
    · exact ⟨t, by unfold insertFrom; rw [if_pos hk]⟩
    · cases hfa : failAt with
      | none => subst hfa; simp [failsIn] at h
      | some j =>
        subst hfa
        have hjk : j ≠ k := fun hjk => hk (congrArg some hjk)
        have h' : failsIn (some j) (k + 1) rs.length = true := by
          rw [failsIn_some_true_iff] at h ⊢
          simp only [List.length_cons] at h
          omega
        obtain ⟨t', ht'⟩ := ih (t.execute r) h'
        exact ⟨t', by unfold insertFrom; rw [if_neg hk]; exact ht'⟩

lemma tablesLoop_eq {failAt : Option Nat} :
    ∀ {items : List Record} {k : Nat} (t : DBTable TableRow),
      (∀ i ∈ items, (Record.get i "table").isSome = true) →
      tablesLoop failAt k items t =
        Except.mapError (fun t' => ((none : Option PyErr), t'))
          (insertFrom failAt k (items.map mysqlTableRow) t) := by
  intro items
  induction items with
  | nil => intro k t _; simp [tablesLoop, insertFrom, Except.mapError]
  | cons item rest ih =>
    intro k t h
    have hi : (Record.get item "table").isSome = true := h item (by simp)
    obtain ⟨v, hv⟩ := Option.isSome_iff_exists.mp hi
    have hrest : ∀ i ∈ rest, (Record.get i "table").isSome = true :=
      fun i hmem => h i (by simp [hmem])
    by_cases hk : failAt = some k
    · simp [tablesLoop, insertFrom, hv, hk, Except.mapError]
    · simp only [tablesLoop, insertFrom, hv, if_neg hk, List.map_cons]
      rw [ih (t.execute (v.render, item.get "page_number")) hrest]
      simp [mysqlTableRow, hv]

lemma tablesLoop_error {failAt : Option Nat} :
    ∀ {items : List Record} {k : Nat} {t : DBTable TableRow}
      {p : Option PyErr × DBTable TableRow},
      tablesLoop failAt k items t = Except.error p →
      p.1 = none ∨ p.1 = some (PyErr.keyError "table") := by
  intro items
  induction items with
  | nil => intro k t p h; simp [tablesLoop] at h
  | cons item rest ih =>
    intro k t p h
    cases hv : item.get "table" with
    | none =>
      simp only [tablesLoop, hv] at h
      cases h
      right
      rfl
    | some v =>
      simp only [tablesLoop, hv] at h
      by_cases hk : failAt = some k
      · rw [if_pos hk] at h
        cases h
        left
        rfl
      · rw [if_neg hk] at h
        exact ih h

lemma buildImageRows_error :
    ∀ {items : List Record} {e : PyErr},
      buildImageRows items = Except.error e →
      e = PyErr.keyError "image_data" ∨ e = PyErr.keyError "image_extension" := by
  intro items
  induction items with
  | nil => intro e h; simp [buildImageRows] at h
  | cons item rest ih =>
    intro e h
    unfold buildImageRows at h
    cases hd : item.get "image_data" with
    | none => rw [hd] at h; cases h; left; rfl
    | some d =>
      rw [hd] at h
      cases he : item.get "image_extension" with
      | none => rw [he] at h; cases h; right; rfl
      | some ext =>
        rw [he] at h
        cases hr : buildImageRows rest with
        | ok rows => rw [hr] at h; cases h
        | error err => rw [hr] at h; cases h; exact ih hr

lemma buildImageRows_ok {items : List Record}
    (h : ∀ i ∈ items, (Record.get i "image_data").isSome = true ∧
         (Record.get i "image_extension").isSome = true) :
    buildImageRows items = Except.ok (items.map mysqlImageRow) := by
  induction items with
  | nil => rfl
  | cons item rest ih =>
    have hi := h item (by simp)
    obtain ⟨d, hd⟩ := Option.isSome_iff_exists.mp hi.1
    obtain ⟨ext, he⟩ := Option.isSome_iff_exists.mp hi.2
    have hrest := ih fun i hmem => h i (by simp [hmem])
    simp [buildImageRows, hd, he, hrest, mysqlImageRow]

lemma buildImageFilesFrom_some :
    ∀ {items : List Record} (i : Nat),
      (∀ r ∈ items, ∃ b, Record.get r "image_data" = some (Val.bytes b)) →
      ∃ entries, buildImageFilesFrom i items = some entries := by
  intro items
  induction items with
  | nil => intro i _; exact ⟨[], rfl⟩
  | cons image rest ih =>
    intro i h
    obtain ⟨b, hb⟩ := h image (by simp)
    obtain ⟨entries, he⟩ := ih (i + 1) fun r hmem => h r (by simp [hmem])
    refine ⟨(("image_" ++ toString i ++ "." ++ imageExt image, b),
             ("image_" ++ toString i ++ "_metadata.txt",
              imageMetaContent i image (imageExt image) b.length)) :: entries, ?_⟩
    unfold buildImageFilesFrom
    rw [hb, he]

/-! ## Shape of the extracted records -/

lemma pdfTextRecords_shape (doc : PDFDoc) :
    ∀ r ∈ pdfTextRecords doc,
      (Record.get r "page_number").isSome = true ∧
      Record.get r "slide_number" = none := by
  intro r hr
  unfold pdfTextRecords at hr
  rw [List.mem_map] at hr
  obtain ⟨pg, _, rfl⟩ := hr
  exact ⟨rfl, rfl⟩

lemma docxTextRecords_shape (doc : DocxDoc) :
    ∀ r ∈ docxTextRecords doc, Record.get r "slide_number" = none := by
  intro r hr
  unfold docxTextRecords at hr
  rw [List.mem_map] at hr
  obtain ⟨p, _, rfl⟩ := hr
  rfl

lemma pdfImageRecords_shape (doc : PDFDoc) :
    ∀ r ∈ pdfImageRecords doc,
      (∃ b, Record.get r "image_data" = some (Val.bytes b)) ∧
      (Record.get r "image_extension").isSome = true := by
  intro r hr
  unfold pdfImageRecords at hr
  rw [List.mem_bind] at hr
  obtain ⟨pg, _, hr⟩ := hr
  rw [List.mem_map] at hr
  obtain ⟨im, _, rfl⟩ := hr
  exact ⟨⟨im.1, rfl⟩, rfl⟩

lemma docxImageRecords_shape (doc : DocxDoc) :
    ∀ r ∈ docxImageRecords doc,
      (∃ b, Record.get r "image_data" = some (Val.bytes b)) ∧
      (Record.get r "image_extension").isSome = true := by
  intro r hr
  unfold docxImageRecords at hr
  rw [List.mem_filterMap] at hr
  obtain ⟨rel, _, heq⟩ := hr
  by_cases hc : strContains rel.target_ref "image" = true
  · rw [if_pos hc] at heq
    cases heq
    exact ⟨⟨rel.blob, rfl⟩, rfl⟩
  · rw [if_neg hc] at heq
    cases heq

lemma pptImageRecords_shape (pres : PPTPres) :
    ∀ r ∈ pptImageRecords pres,
      (∃ b, Record.get r "image_data" = some (Val.bytes b)) ∧
      (Record.get r "image_extension").isSome = true := by
  intro r hr
  unfold pptImageRecords at hr
  rw [List.mem_bind] at hr
  obtain ⟨sl, _, hr⟩ := hr
  rw [List.mem_filterMap] at hr
  obtain ⟨shape, _, heq⟩ := hr
  cases him : shape.image with
  | none => rw [him] at heq; cases heq
  | some im => rw [him] at heq; cases heq; exact ⟨⟨im.1, rfl⟩, rfl⟩

lemma pdfTableRecords_shape (plumber : List PlumberPage) :
    ∀ r ∈ pdfTableRecords plumber, (Record.get r "table").isSome = true := by
  intro r hr
  unfold pdfTableRecords at hr
  rw [List.mem_bind] at hr
  obtain ⟨pg, _, hr⟩ := hr
  rw [List.mem_map] at hr
  obtain ⟨tb, _, rfl⟩ := hr
  rfl

lemma docxTableRecords_shape (doc : DocxDoc) :
    ∀ r ∈ docxTableRecords doc, (Record.get r "table").isSome = true := by
  intro r hr
  unfold docxTableRecords at hr
  rw [List.mem_map] at hr
  obtain ⟨tb, _, rfl⟩ := hr
  rfl

lemma pptTableRecords_shape (pres : PPTPres) :
    ∀ r ∈ pptTableRecords pres, (Record.get r "table").isSome = true := by
  intro r hr
  unfold pptTableRecords at hr
  rw [List.mem_bind] at hr
  obtain ⟨sl, _, hr⟩ := hr
  rw [List.mem_filterMap] at hr
  obtain ⟨shape, _, heq⟩ := hr
  cases ht : shape.table with
  | none => rw [ht] at heq; cases heq
  | some rows => rw [ht] at heq; cases heq; rfl

lemma imagesOf_shape (l : Loader) (hl : l.loadedb = true) :
    ∀ r ∈ imagesOf l,
      (∃ b, Record.get r "image_data" = some (Val.bytes b)) ∧
      (Record.get r "image_extension").isSome = true := by
  cases l with
  | pdf od opl fp =>
    cases od with
    | none => simp [Loader.loadedb] at hl
    | some d => exact fun r hr => pdfImageRecords_shape d r hr
  | docx od =>
    cases od with
    | none => simp [Loader.loadedb] at hl
    | some d => exact fun r hr => docxImageRecords_shape d r hr
  | ppt op =>
    cases op with
    | none => simp [Loader.loadedb] at hl
    | some p => exact fun r hr => pptImageRecords_shape p r hr
  | other => simp [Loader.loadedb] at hl

lemma tablesOf_shape (l : Loader) (hl : l.loadedb = true) :
    ∀ r ∈ tablesOf l, (Record.get r "table").isSome = true := by
  cases l with
  | pdf od opl fp =>
    cases opl with
    | none =>
      cases od with
      | none => simp [Loader.loadedb] at hl
      | some _ => simp [Loader.loadedb] at hl
    | some pl => exact fun r hr => pdfTableRecords_shape pl r hr
  | docx od =>
    cases od with
    | none => simp [Loader.loadedb] at hl
    | some d => exact fun r hr => docxTableRecords_shape d r hr
  | ppt op =>
    cases op with
    | none => simp [Loader.loadedb] at hl
    | some p => exact fun r hr => pptTableRecords_shape p r hr
  | other => simp [Loader.loadedb] at hl

/-! ## Claims -/

/-- C3: for every loader (PDFLoader, DOCXLoader, PPTLoader) and every
file path, `load` validates that the path ends with the loader's
expected extension before invoking the library parser; when the path
does not end with the expected extension, validation fails
(`validate_extension` raises ValueError), the library parser is never
invoked, and `load` returns None. -/
theorem loaders_reject_wrong_extension (fp : String)
    (pd : Option PDFDoc) (dd : Option DocxDoc) (pp : Option PPTPres) :
    (pyEndsWith fp ".pdf" = false →
      validate_extension fp ".pdf" = Except.error (PyErr.valueError "Invalid file format.") ∧
      PDFLoader.load fp pd = { result := none, parserInvoked := false }) ∧
    (pyEndsWith fp ".docx" = false →
      validate_extension fp ".docx" = Except.error (PyErr.valueError "Invalid file format.") ∧
      DOCXLoader.load fp dd = { result := none, parserInvoked := false }) ∧
    (pyEndsWith fp ".pptx" = false →
      validate_extension fp ".pptx" = Except.error (PyErr.valueError "Invalid file format.") ∧
      PPTLoader.load fp pp = { result := none, parserInvoked := false }) := by
  refine ⟨fun h => ⟨?_, ?_⟩, fun h => ⟨?_, ?_⟩, fun h => ⟨?_, ?_⟩⟩ <;>
    simp [validate_extension, PDFLoader.load, DOCXLoader.load, PPTLoader.load, loadWith, h]

/-- Witness for C3 at the concrete path "report.txt". -/
theorem loaders_reject_wrong_extension_witness :
    (validate_extension "report.txt" ".pdf"
        = Except.error (PyErr.valueError "Invalid file format.") ∧
      PDFLoader.load "report.txt" none = { result := none, parserInvoked := false }) ∧
    (DOCXLoader.load "report.txt" none = { result := none, parserInvoked := false }) ∧
    (PPTLoader.load "report.txt" none = { result := none, parserInvoked := false }) :=
  ⟨(loaders_reject_wrong_extension "report.txt" none none none).1 (by decide),
   ((loaders_reject_wrong_extension "report.txt" none none none).2.1 (by decide)).2,
   ((loaders_reject_wrong_extension "report.txt" none none none).2.2 (by decide)).2⟩

/-- C2: each of the four DataExtractor operations dispatches on the
loader type — the PDF routine for a PDFLoader, the DOCX routine for a
DOCXLoader, the PPTX routine for a PPTLoader — and raises (a
RuntimeError wrapping the ValueError of the dispatcher) for a loader of
any other type instead of returning a result. -/
theorem extractor_dispatches_on_loader_type (fault : Bool)
    (d : PDFDoc) (opl : Option (List PlumberPage)) (od : Option PDFDoc)
    (fp : String) (dd : DocxDoc) (pp : PPTPres) (pl : List PlumberPage) :
    (DataExtractor.extract_text false (Loader.pdf (some d) opl fp)
        = Except.ok (pdfTextRecords d) ∧
      DataExtractor.extract_text false (Loader.docx (some dd))
        = Except.ok (docxTextRecords dd) ∧
      DataExtractor.extract_text false (Loader.ppt (some pp))
        = Except.ok (pptTextRecords pp) ∧
      DataExtractor.extract_text fault Loader.other
        = Except.error (PyErr.runtimeError "Error during extraction")) ∧
    (DataExtractor.extract_links false (Loader.pdf (some d) opl fp)
        = Except.ok (pdfLinkRecords d) ∧
      DataExtractor.extract_links false (Loader.docx (some dd))
        = Except.ok (docxLinkRecords dd) ∧
      DataExtractor.extract_links false (Loader.ppt (some pp))
        = Except.ok (pptLinkRecords pp) ∧
      DataExtractor.extract_links fault Loader.other
        = Except.error (PyErr.runtimeError "Error during extraction")) ∧
    (DataExtractor.extract_images false (Loader.pdf (some d) opl fp)
        = Except.ok (pdfImageRecords d) ∧
      DataExtractor.extract_images false (Loader.docx (some dd))
        = Except.ok (docxImageRecords dd) ∧
      DataExtractor.extract_images false (Loader.ppt (some pp))
        = Except.ok (pptImageRecords pp) ∧
      DataExtractor.extract_images fault Loader.other
        = Except.error (PyErr.runtimeError "Error during extraction")) ∧
    (DataExtractor.extract_tables false (Loader.pdf od (some pl) fp)
        = Except.ok (pdfTableRecords pl) ∧
      DataExtractor.extract_tables false (Loader.docx (some dd))
        = Except.ok (docxTableRecords dd) ∧
      DataExtractor.extract_tables false (Loader.ppt (some pp))
        = Except.ok (pptTableRecords pp) ∧
      DataExtractor.extract_tables fault Loader.other
        = Except.error (PyErr.runtimeError "Error during extraction")) :=
  ⟨⟨rfl, rfl, rfl, rfl⟩, ⟨rfl, rfl, rfl, rfl⟩, ⟨rfl, rfl, rfl, rfl⟩,
   ⟨rfl, rfl, rfl, rfl⟩⟩

/-- C9: `MySQLStorage.save_text` puts the record's slide_number field
into the page_number column.  Every PDF text record carries page_number
(not slide_number) and every DOCX text record carries neither, so both
are inserted with a NULL page_number column — even though the PDF
record does contain a page number. -/
theorem mysql_save_text_page_number_column :
    (∀ item : Record,
      mysqlTextRow item = ((item.get "text").getD (Val.str ""), item.get "slide_number")) ∧
    (∀ doc : PDFDoc, ∀ r ∈ pdfTextRecords doc,
      (Record.get r "page_number").isSome = true ∧ (mysqlTextRow r).2 = none) ∧
    (∀ doc : DocxDoc, ∀ r ∈ docxTextRecords doc, (mysqlTextRow r).2 = none) := by
  refine ⟨fun item => rfl, fun doc r hr => ?_, fun doc r hr => ?_⟩
  · obtain ⟨h1, h2⟩ := pdfTextRecords_shape doc r hr
    refine ⟨h1, ?_⟩
    show Record.get r "slide_number" = none
    exact h2
  · show Record.get r "slide_number" = none
    exact docxTextRecords_shape doc r hr

/-- Witness for C9 on a one-page PDF document. -/
theorem mysql_save_text_page_number_column_witness :
    (Record.get [("page_number", Val.int 1), ("text", Val.str "hi")] "page_number").isSome
        = true ∧
    (mysqlTextRow [("page_number", Val.int 1), ("text", Val.str "hi")]).2 = none :=
  mysql_save_text_page_number_column.2.1
    { pages := [{ text := "hi", links := [], images := [] }] }
    [("page_number", Val.int 1), ("text", Val.str "hi")] (by decide)

/-- C8: every save operation of both backends raises ValueError on a
non-list argument before writing anything (the state is returned
untouched), and a list argument — empty or not — never triggers that
ValueError. -/
theorem save_ops_type_check (fault : Bool) (st : FSState) (failAt : Option Nat)
    (conn : MySQLConn) (s : String) (items : List Record) :
    (FileStorage.save_text fault st (PyArg.nonList s)
        = (some (PyErr.valueError "text_data must be a list."), st)) ∧
    (FileStorage.save_links fault st (PyArg.nonList s)
        = (some (PyErr.valueError "links_data must be a list."), st)) ∧
    (FileStorage.save_images fault st (PyArg.nonList s)
        = (some (PyErr.valueError "images_data must be a list."), st)) ∧
    (FileStorage.save_tables fault st (PyArg.nonList s)
        = (some (PyErr.valueError "tables_data must be a list."), st)) ∧
    (MySQLStorage.save_text failAt conn (PyArg.nonList s)
        = (some (PyErr.valueError "text_data must be a list."), conn)) ∧
    (MySQLStorage.save_images failAt conn (PyArg.nonList s)
        = (some (PyErr.valueError "images_data must be a list."), conn)) ∧
    (MySQLStorage.save_tables failAt conn (PyArg.nonList s)
        = (some (PyErr.valueError "tables_data must be a list."), conn)) ∧
    (MySQLStorage.save_links failAt conn (PyArg.nonList s)
        = (some (PyErr.valueError "links_data must be a list."), conn)) ∧
    ((FileStorage.save_text fault st (PyArg.list items)).1
        ≠ some (PyErr.valueError "text_data must be a list.")) ∧
    ((FileStorage.save_links fault st (PyArg.list items)).1
        ≠ some (PyErr.valueError "links_data must be a list.")) ∧
    ((FileStorage.save_images fault st (PyArg.list items)).1
        ≠ some (PyErr.valueError "images_data must be a list.")) ∧
    ((FileStorage.save_tables fault st (PyArg.list items)).1
        ≠ some (PyErr.valueError "tables_data must be a list.")) ∧
    ((MySQLStorage.save_text failAt conn (PyArg.list items)).1
        ≠ some (PyErr.valueError "text_data must be a list.")) ∧
    ((MySQLStorage.save_images failAt conn (PyArg.list items)).1
        ≠ some (PyErr.valueError "images_data must be a list.")) ∧
    ((MySQLStorage.save_tables failAt conn (PyArg.list items)).1
        ≠ some (PyErr.valueError "tables_data must be a list.")) ∧
    ((MySQLStorage.save_links failAt conn (PyArg.list items)).1
        ≠ some (PyErr.valueError "links_data must be a list.")) := by
  refine ⟨rfl, rfl, rfl, rfl, rfl, rfl, rfl, rfl, ?_, ?_, ?_, ?_, ?_, ?_, ?_, ?_⟩
  · cases fault <;> simp [FileStorage.save_text]
  · cases fault <;> simp [FileStorage.save_links]
  · cases fault <;> cases h : buildImageFiles items <;>
      simp [FileStorage.save_images, h]
  · cases fault <;> simp [FileStorage.save_tables]
  · cases h : insertFrom failAt 0 (items.map mysqlTextRow) conn.text_data <;>
      simp [MySQLStorage.save_text, h]
  · cases hb : buildImageRows items with
    | error e =>
      simp only [MySQLStorage.save_images, hb]
      rcases buildImageRows_error hb with h | h <;> simp [h]
    | ok rows =>
      cases h : insertFrom failAt 0 rows conn.images_data <;>
        simp [MySQLStorage.save_images, hb, h]
  · cases ht : tablesLoop failAt 0 items conn.tables_data with
    | error p =>
      simp only [MySQLStorage.save_tables, ht]
      rcases p with ⟨op, t⟩
      rcases tablesLoop_error ht with h | h <;> simp at h <;> subst h <;> simp
    | ok t => simp [MySQLStorage.save_tables, ht]
  · cases h : insertFrom failAt 0 (items.map mysqlLinkRow) conn.links_data <;>
      simp [MySQLStorage.save_links, h]

lemma saveLoop_spec (failAt : Option Nat) (t : DBTable ρ) (rows : List ρ)
    (hp : t.pending = []) :
    (failsIn failAt 0 rows.length = false →
      ∃ t', insertFrom failAt 0 rows t = Except.ok t' ∧
        t'.commit = { committed := t.committed ++ rows, pending := [] }) ∧
    (failsIn failAt 0 rows.length = true →
      ∃ t', insertFrom failAt 0 rows t = Except.error t' ∧ t'.rollback = t) := by
  constructor
  · intro h
    refine ⟨_, insertFrom_ok t h, ?_⟩
    simp [DBTable.commit, hp]
  · intro h
    obtain ⟨t', ht'⟩ := insertFrom_err t h
    refine ⟨t', ht', ?_⟩
    have hc := insertFrom_error_committed ht'
    cases t
    simp only [DBTable.rollback, hc]
    simp_all

lemma mysql_save_text_spec (failAt : Option Nat) (conn : MySQLConn)
    (items : List Record) (hp : conn.text_data.pending = []) :
    (failsIn failAt 0 items.length = false →
      (MySQLStorage.save_text failAt conn (PyArg.list items)).2.text_data
        = { committed := conn.text_data.committed ++ items.map mysqlTextRow,
            pending := [] }) ∧
    (failsIn failAt 0 items.length = true →
      (MySQLStorage.save_text failAt conn (PyArg.list items)).2.text_data
        = conn.text_data) := by
  have hlen : (items.map mysqlTextRow).length = items.length := List.length_map ..
  obtain ⟨hok, herr⟩ := saveLoop_spec failAt conn.text_data (items.map mysqlTextRow) hp
  constructor
  · intro h
    obtain ⟨t', ht', hcm⟩ := hok (by rw [hlen]; exact h)
    simp [MySQLStorage.save_text, ht', hcm]
  · intro h
    obtain ⟨t', ht', hrb⟩ := herr (by rw [hlen]; exact h)
    simp [MySQLStorage.save_text, ht', hrb]

lemma mysql_save_links_spec (failAt : Option Nat) (conn : MySQLConn)
    (items : List Record) (hp : conn.links_data.pending = []) :
    (failsIn failAt 0 items.length = false →
      (MySQLStorage.save_links failAt conn (PyArg.list items)).2.links_data
        = { committed := conn.links_data.committed ++ items.map mysqlLinkRow,
            pending := [] }) ∧
    (failsIn failAt 0 items.length = true →
      (MySQLStorage.save_links failAt conn (PyArg.list items)).2.links_data
        = conn.links_data) := by
  have hlen : (items.map mysqlLinkRow).length = items.length := List.length_map ..
  obtain ⟨hok, herr⟩ := saveLoop_spec failAt conn.links_data (items.map mysqlLinkRow) hp
  constructor
  · intro h
    obtain ⟨t', ht', hcm⟩ := hok (by rw [hlen]; exact h)
    simp [MySQLStorage.save_links, ht', hcm]
  · intro h
    obtain ⟨t', ht', hrb⟩ := herr (by rw [hlen]; exact h)
    simp [MySQLStorage.save_links, ht', hrb]

lemma mysql_save_images_spec (failAt : Option Nat) (conn : MySQLConn)
    (items : List Record) (rows : List ImageRow)
    (hb : buildImageRows items = Except.ok rows)
    (hp : conn.images_data.pending = []) :
    (failsIn failAt 0 rows.length = false →
      (MySQLStorage.save_images failAt conn (PyArg.list items)).2.images_data
        = { committed := conn.images_data.committed ++ rows, pending := [] }) ∧
    (failsIn failAt 0 rows.length = true →
      (MySQLStorage.save_images failAt conn (PyArg.list items)).2.images_data
        = conn.images_data) := by
  obtain ⟨hok, herr⟩ := saveLoop_spec failAt conn.images_data rows hp
  constructor
  · intro h
    obtain ⟨t', ht', hcm⟩ := hok h
    simp [MySQLStorage.save_images, hb, ht', hcm]
  · intro h
    obtain ⟨t', ht', hrb⟩ := herr h
    simp [MySQLStorage.save_images, hb, ht', hrb]

lemma mysql_save_tables_spec (failAt : Option Nat) (conn : MySQLConn)
    (items : List Record) (hkeys : ∀ i ∈ items, (Record.get i "table").isSome = true)
    (hp : conn.tables_data.pending = []) :
    (failsIn failAt 0 items.length = false →
      (MySQLStorage.save_tables failAt conn (PyArg.list items)).2.tables_data
        = { committed := conn.tables_data.committed ++ items.map mysqlTableRow,
            pending := [] }) ∧
    (failsIn failAt 0 items.length = true →
      (MySQLStorage.save_tables failAt conn (PyArg.list items)).2.tables_data
        = conn.tables_data) := by
  have hlen : (items.map mysqlTableRow).length = items.length := List.length_map ..
  have hloop := @tablesLoop_eq failAt items 0 conn.tables_data hkeys
  obtain ⟨hok, herr⟩ := saveLoop_spec failAt conn.tables_data (items.map mysqlTableRow) hp
  constructor
  · intro h
    obtain ⟨t', ht', hcm⟩ := hok (by rw [hlen]; exact h)
    rw [ht'] at hloop
    simp [MySQLStorage.save_tables, hloop, Except.mapError, hcm]
  · intro h
    obtain ⟨t', ht', hrb⟩ := herr (by rw [hlen]; exact h)
    rw [ht'] at hloop
    simp [MySQLStorage.save_tables, hloop, Except.mapError, hrb]

/-- C7: each MySQLStorage save operation is atomic with respect to the
committed database state: starting from a connection with no open
transaction, either every row derived from the input list is inserted
and committed, or — when a `mysql.connector.Error` strikes one of the
INSERTs — the transaction is rolled back and the table is exactly as
before the call.  (For save_images the rows are the ones the
comprehension builds; a KeyError there propagates before any INSERT,
also leaving the database untouched.) -/
theorem mysql_saves_atomic (f1 f2 f3 f4 : Option Nat) (conn : MySQLConn)
    (ts ims tbs ls : List Record)
    (hpt : conn.text_data.pending = [])
    (hpi : conn.images_data.pending = [])
    (hptb : conn.tables_data.pending = [])
    (hpl : conn.links_data.pending = [])
    (htb : ∀ i ∈ tbs, (Record.get i "table").isSome = true) :
    ((failsIn f1 0 ts.length = false →
      (MySQLStorage.save_text f1 conn (PyArg.list ts)).2.text_data
        = { committed := conn.text_data.committed ++ ts.map mysqlTextRow,
            pending := [] }) ∧
     (failsIn f1 0 ts.length = true →
      (MySQLStorage.save_text f1 conn (PyArg.list ts)).2.text_data
        = conn.text_data)) ∧
    ((∀ rows, buildImageRows ims = Except.ok rows →
      (failsIn f2 0 rows.length = false →
        (MySQLStorage.save_images f2 conn (PyArg.list ims)).2.images_data
          = { committed := conn.images_data.committed ++ rows, pending := [] }) ∧
      (failsIn f2 0 rows.length = true →
        (MySQLStorage.save_images f2 conn (PyArg.list ims)).2.images_data
          = conn.images_data)) ∧
     (∀ e, buildImageRows ims = Except.error e →
      MySQLStorage.save_images f2 conn (PyArg.list ims) = (some e, conn))) ∧
    ((failsIn f3 0 tbs.length = false →
      (MySQLStorage.save_tables f3 conn (PyArg.list tbs)).2.tables_data
        = { committed := conn.tables_data.committed ++ tbs.map mysqlTableRow,
            pending := [] }) ∧
     (failsIn f3 0 tbs.length = true →
      (MySQLStorage.save_tables f3 conn (PyArg.list tbs)).2.tables_data
        = conn.tables_data)) ∧
    ((failsIn f4 0 ls.length = false →
      (MySQLStorage.save_links f4 conn (PyArg.list ls)).2.links_data
        = { committed := conn.links_data.committed ++ ls.map mysqlLinkRow,
            pending := [] }) ∧
     (failsIn f4 0 ls.length = true →
      (MySQLStorage.save_links f4 conn (PyArg.list ls)).2.links_data
        = conn.links_data)) := by
  refine ⟨mysql_save_text_spec f1 conn ts hpt,
          ⟨fun rows hb => mysql_save_images_spec f2 conn ims rows hb hpi,
           fun e he => ?_⟩,
          mysql_save_tables_spec f3 conn tbs htb hptb,
          mysql_save_links_spec f4 conn ls hpl⟩
  simp [MySQLStorage.save_images, he]

/-- Witness for C7: a one-row batch committed when no INSERT fails, and
left exactly unchanged when the first INSERT fails. -/
theorem mysql_saves_atomic_witness :
    ((MySQLStorage.save_text (some 0)
        { text_data := { committed := [], pending := [] },
          images_data := { committed := [], pending := [] },
          tables_data := { committed := [], pending := [] },
          links_data := { committed := [], pending := [] } }
        (PyArg.list [[("text", Val.str "a")]])).2.text_data
      = { committed := [], pending := [] }) ∧
    ((MySQLStorage.save_links none
        { text_data := { committed := [], pending := [] },
          images_data := { committed := [], pending := [] },
          tables_data := { committed := [], pending := [] },
          links_data := { committed := [], pending := [] } }
        (PyArg.list [[("url", Val.str "http://a")]])).2.links_data
      = { committed := [(Val.str "http://a", none)], pending := [] }) :=
  ⟨((mysql_saves_atomic (some 0) none (some 1) none
      { text_data := { committed := [], pending := [] },
        images_data := { committed := [], pending := [] },
        tables_data := { committed := [], pending := [] },
        links_data := { committed := [], pending := [] } }
      [[("text", Val.str "a")]] [] [] [[("url", Val.str "http://a")]]
      rfl rfl rfl rfl (by decide)).1.2 (by decide)),
   ((mysql_saves_atomic (some 0) none (some 1) none
      { text_data := { committed := [], pending := [] },
        images_data := { committed := [], pending := [] },
        tables_data := { committed := [], pending := [] },
        links_data := { committed := [], pending := [] } }
      [[("text", Val.str "a")]] [] [] [[("url", Val.str "http://a")]]
      rfl rfl rfl rfl (by decide)).2.2.2.1 (by decide))⟩

lemma imagesOf_keys (l : Loader) (hl : l.loadedb = true) :
    ∀ i ∈ imagesOf l, (Record.get i "image_data").isSome = true ∧
      (Record.get i "image_extension").isSome = true := by
  intro i hi
  obtain ⟨⟨b, hb⟩, he⟩ := imagesOf_shape l hl i hi
  exact ⟨by rw [hb]; rfl, he⟩

/-- C5: both storage backends implement the common save interface — one
save operation per extracted data category — and all four operations of
both backends accept (without raising) the record lists the extractor
produces for each supported format. -/
theorem storage_backends_uniform_interface (l : Loader) (hl : l.loadedb = true)
    (st : FSState) (conn : MySQLConn) :
    ((fileBackend false).save_text st (PyArg.list (textOf l))).1 = none ∧
    ((fileBackend false).save_links st (PyArg.list (linksOf l))).1 = none ∧
    ((fileBackend false).save_images st (PyArg.list (imagesOf l))).1 = none ∧
    ((fileBackend false).save_tables st (PyArg.list (tablesOf l))).1 = none ∧
    ((mysqlBackend { text := none, images := none, tables := none, links := none
      }).save_text conn (PyArg.list (textOf l))).1 = none ∧
    ((mysqlBackend { text := none, images := none, tables := none, links := none
      }).save_links conn (PyArg.list (linksOf l))).1 = none ∧
    ((mysqlBackend { text := none, images := none, tables := none, links := none
      }).save_images conn (PyArg.list (imagesOf l))).1 = none ∧
    ((mysqlBackend { text := none, images := none, tables := none, links := none
      }).save_tables conn (PyArg.list (tablesOf l))).1 = none := by
  refine ⟨rfl, rfl, ?_, rfl, ?_, ?_, ?_, ?_⟩
  · cases h : buildImageFiles (imagesOf l) <;>
      simp [fileBackend, FileStorage.save_images, h]
  · have hins := @insertFrom_ok TextRow none ((textOf l).map mysqlTextRow) 0
      conn.text_data rfl
    simp [mysqlBackend, MySQLStorage.save_text, hins]
  · have hins := @insertFrom_ok LinkRow none ((linksOf l).map mysqlLinkRow) 0
      conn.links_data rfl
    simp [mysqlBackend, MySQLStorage.save_links, hins]
  · have hb := buildImageRows_ok (imagesOf_keys l hl)
    have hins := @insertFrom_ok ImageRow none ((imagesOf l).map mysqlImageRow) 0
      conn.images_data rfl
    simp [mysqlBackend, MySQLStorage.save_images, hb, hins]
  · have hloop := @tablesLoop_eq none (tablesOf l) 0 conn.tables_data
      (tablesOf_shape l hl)
    have hins := @insertFrom_ok TableRow none ((tablesOf l).map mysqlTableRow) 0
      conn.tables_data rfl
    rw [hins] at hloop
    simp [mysqlBackend, MySQLStorage.save_tables, hloop, Except.mapError]

/-- Witness for C5 on a loaded one-page PDF loader. -/
theorem storage_backends_uniform_interface_witness :
    ((fileBackend false).save_text { files := [], binfiles := [] }
      (PyArg.list (textOf (Loader.pdf
        (some { pages := [{ text := "hi", links := [], images := [] }] })
        (some []) "f.pdf")))).1 = none ∧
    ((mysqlBackend { text := none, images := none, tables := none, links := none
      }).save_tables
        { text_data := { committed := [], pending := [] },
          images_data := { committed := [], pending := [] },
          tables_data := { committed := [], pending := [] },
          links_data := { committed := [], pending := [] } }
        (PyArg.list (tablesOf (Loader.pdf
          (some { pages := [{ text := "hi", links := [], images := [] }] })
          (some []) "f.pdf")))).1 = none :=
  ⟨(storage_backends_uniform_interface
      (Loader.pdf (some { pages := [{ text := "hi", links := [], images := [] }] })
        (some []) "f.pdf") (by decide)
      { files := [], binfiles := [] }
      { text_data := { committed := [], pending := [] },
        images_data := { committed := [], pending := [] },
        tables_data := { committed := [], pending := [] },
        links_data := { committed := [], pending := [] } }).1,
   (storage_backends_uniform_interface
      (Loader.pdf (some { pages := [{ text := "hi", links := [], images := [] }] })
        (some []) "f.pdf") (by decide)
      { files := [], binfiles := [] }
      { text_data := { committed := [], pending := [] },
        images_data := { committed := [], pending := [] },
        tables_data := { committed := [], pending := [] },
        links_data := { committed := [], pending := [] } }).2.2.2.2.2.2.2⟩

/-- Counterexample to C4: with a write error injected,
`FileStorage.save_text` returns normally — no exception reaches the
caller (error component `none`) and the text file was never written
(the state is unchanged).  The operation suppressed an internal error
and continued as if it succeeded, contradicting the claim that every
operation re-raises. -/
theorem error_suppression_counterexample :
    FileStorage.save_text true { files := [], binfiles := [] }
      (PyArg.list [[("text", Val.str "hello")]])
      = (none, { files := [], binfiles := [] }) := rfl

/-- C4 amended: only the extraction routines log and re-raise internal
errors (as RuntimeError).  The loaders' `load` logs and suppresses every
error, returning None.  The FileStorage saves log and suppress every
internal error, returning normally with the failed write unperformed.
The MySQL saves log, roll back and suppress database errors
(`mysql.connector.Error`) — all four of them — returning normally; but a
record missing its mandatory key makes `MySQLStorage.save_images` raise
KeyError before any INSERT and `MySQLStorage.save_tables` raise KeyError
part-way, uncaught (the except clause catches only the connector error),
with the already-executed INSERTs left in an open transaction; the
not-a-list ValueError checks also raise to the caller.  (Logging itself
is outside the model; the raise/suppress behaviour is what is proved.) -/
theorem pipeline_error_handling_amended
    (od : Option PDFDoc) (opl : Option (List PlumberPage)) (fp : String)
    (odd : Option DocxDoc) (opp : Option PPTPres)
    (st : FSState) (conn : MySQLConn) (item : Record) (items : List Record)
    (bs : List Nat) (ex : String) (tb : List (List String))
    (failAt : Option Nat) :
    (DataExtractor.extract_text true (Loader.pdf od opl fp)
        = Except.error (PyErr.runtimeError "Error during extraction") ∧
      DataExtractor.extract_text true (Loader.docx odd)
        = Except.error (PyErr.runtimeError "Error during extraction") ∧
      DataExtractor.extract_text true (Loader.ppt opp)
        = Except.error (PyErr.runtimeError "Error during extraction") ∧
      DataExtractor.extract_links true (Loader.pdf od opl fp)
        = Except.error (PyErr.runtimeError "Error during extraction") ∧
      DataExtractor.extract_links true (Loader.docx odd)
        = Except.error (PyErr.runtimeError "Error during extraction") ∧
      DataExtractor.extract_links true (Loader.ppt opp)
        = Except.error (PyErr.runtimeError "Error during extraction") ∧
      DataExtractor.extract_images true (Loader.pdf od opl fp)
        = Except.error (PyErr.runtimeError "Error during extraction") ∧
      DataExtractor.extract_images true (Loader.docx odd)
        = Except.error (PyErr.runtimeError "Error during extraction") ∧
      DataExtractor.extract_images true (Loader.ppt opp)
        = Except.error (PyErr.runtimeError "Error during extraction") ∧
      DataExtractor.extract_tables true (Loader.pdf od opl fp)
        = Except.error (PyErr.runtimeError "Error during extraction") ∧
      DataExtractor.extract_tables true (Loader.docx odd)
        = Except.error (PyErr.runtimeError "Error during extraction") ∧
      DataExtractor.extract_tables true (Loader.ppt opp)
        = Except.error (PyErr.runtimeError "Error during extraction")) ∧
    ((PDFLoader.load fp none).result = none ∧
      (DOCXLoader.load fp none).result = none ∧
      (PPTLoader.load fp none).result = none) ∧
    (FileStorage.save_text true st (PyArg.list items) = (none, st) ∧
      FileStorage.save_links true st (PyArg.list items) = (none, st) ∧
      FileStorage.save_images true st (PyArg.list items) = (none, st) ∧
      FileStorage.save_tables true st (PyArg.list items) = (none, st)) ∧
    ((MySQLStorage.save_text (some 0) conn (PyArg.list (item :: items))).1 = none ∧
      (MySQLStorage.save_text (some 0) conn
        (PyArg.list (item :: items))).2.text_data.committed
        = conn.text_data.committed ∧
      (MySQLStorage.save_links (some 0) conn (PyArg.list (item :: items))).1 = none ∧
      (MySQLStorage.save_links (some 0) conn
        (PyArg.list (item :: items))).2.links_data.committed
        = conn.links_data.committed ∧
      (MySQLStorage.save_images (some 0) conn (PyArg.list
        [[("image_data", Val.bytes bs), ("image_extension", Val.str ex)]])).1
        = none ∧
      (MySQLStorage.save_images (some 0) conn (PyArg.list
        [[("image_data", Val.bytes bs),
          ("image_extension", Val.str ex)]])).2.images_data.committed
        = conn.images_data.committed ∧
      (MySQLStorage.save_tables (some 0) conn (PyArg.list
        [[("table", Val.table tb)]])).1 = none ∧
      (MySQLStorage.save_tables (some 0) conn (PyArg.list
        [[("table", Val.table tb)]])).2.tables_data.committed
        = conn.tables_data.committed) ∧
    (MySQLStorage.save_images failAt conn (PyArg.list ([] :: items))
        = (some (PyErr.keyError "image_data"), conn) ∧
      MySQLStorage.save_tables none conn
        (PyArg.list [[("table", Val.table tb)], []])
        = (some (PyErr.keyError "table"),
           { conn with tables_data :=
               conn.tables_data.execute ((Val.table tb).render, none) })) := by
  refine ⟨?_, ?_, ?_, ?_, ?_⟩
  · cases od <;> cases odd <;> cases opp <;> cases opl <;>
      exact ⟨rfl, rfl, rfl, rfl, rfl, rfl, rfl, rfl, rfl, rfl, rfl, rfl⟩
  · refine ⟨?_, ?_, ?_⟩ <;>
      simp [PDFLoader.load, DOCXLoader.load, PPTLoader.load, loadWith,
        validate_extension] <;>
      split <;> simp
  · refine ⟨rfl, rfl, ?_, rfl⟩
    cases h : buildImageFiles items <;> simp [FileStorage.save_images, h]
  · refine ⟨rfl, rfl, rfl, rfl, rfl, rfl, rfl, rfl⟩
  · refine ⟨rfl, rfl⟩

lemma mysql_save_text_err_none (failAt : Option Nat) (conn : MySQLConn)
    (xs : List Record) :
    (MySQLStorage.save_text failAt conn (PyArg.list xs)).1 = none := by
  cases h : insertFrom failAt 0 (xs.map mysqlTextRow) conn.text_data <;>
    simp [MySQLStorage.save_text, h]

lemma mysql_save_links_err_none (failAt : Option Nat) (conn : MySQLConn)
    (xs : List Record) :
    (MySQLStorage.save_links failAt conn (PyArg.list xs)).1 = none := by
  cases h : insertFrom failAt 0 (xs.map mysqlLinkRow) conn.links_data <;>
    simp [MySQLStorage.save_links, h]

lemma mysql_save_text_none (conn : MySQLConn) (xs : List Record)
    (hp : conn.text_data.pending = []) :
    MySQLStorage.save_text none conn (PyArg.list xs)
      = (none, { conn with text_data :=
          { committed := conn.text_data.committed ++ xs.map mysqlTextRow,
            pending := [] } }) := by
  have hins := @insertFrom_ok TextRow none (xs.map mysqlTextRow) 0 conn.text_data rfl
  simp [MySQLStorage.save_text, hins, DBTable.commit, hp]

lemma mysql_save_links_none (conn : MySQLConn) (xs : List Record)
    (hp : conn.links_data.pending = []) :
    MySQLStorage.save_links none conn (PyArg.list xs)
      = (none, { conn with links_data :=
          { committed := conn.links_data.committed ++ xs.map mysqlLinkRow,
            pending := [] } }) := by
  have hins := @insertFrom_ok LinkRow none (xs.map mysqlLinkRow) 0 conn.links_data rfl
  simp [MySQLStorage.save_links, hins, DBTable.commit, hp]

lemma mysql_save_images_none (conn : MySQLConn) (xs : List Record)
    (hkeys : ∀ i ∈ xs, (Record.get i "image_data").isSome = true ∧
      (Record.get i "image_extension").isSome = true)
    (hp : conn.images_data.pending = []) :
    MySQLStorage.save_images none conn (PyArg.list xs)
      = (none, { conn with images_data :=
          { committed := conn.images_data.committed ++ xs.map mysqlImageRow,
            pending := [] } }) := by
  have hb := buildImageRows_ok hkeys
  have hins := @insertFrom_ok ImageRow none (xs.map mysqlImageRow) 0 conn.images_data rfl
  simp [MySQLStorage.save_images, hb, hins, DBTable.commit, hp]

lemma mysql_save_tables_none (conn : MySQLConn) (xs : List Record)
    (hkeys : ∀ i ∈ xs, (Record.get i "table").isSome = true)
    (hp : conn.tables_data.pending = []) :
    MySQLStorage.save_tables none conn (PyArg.list xs)
      = (none, { conn with tables_data :=
          { committed := conn.tables_data.committed ++ xs.map mysqlTableRow,
            pending := [] } }) := by
  have hloop := @tablesLoop_eq none xs 0 conn.tables_data hkeys
  have hins := @insertFrom_ok TableRow none (xs.map mysqlTableRow) 0 conn.tables_data rfl
  rw [hins] at hloop
  simp [MySQLStorage.save_tables, hloop, Except.mapError, DBTable.commit, hp]

lemma extractAll_loaded (l : Loader) (hl : l.loadedb = true) :
    extractAll noFaults l
      = ([Event.extractText, Event.extractLinks, Event.extractImages,
          Event.extractTables],
         Except.ok (textOf l, linksOf l, imagesOf l, tablesOf l)) := by
  cases l with
  | pdf od opl fp =>
    cases od with
    | none => simp [Loader.loadedb] at hl
    | some d =>
      cases opl with
      | none => simp [Loader.loadedb] at hl
      | some pl => rfl
  | docx od =>
    cases od with
    | none => simp [Loader.loadedb] at hl
    | some d => rfl
  | ppt op =>
    cases op with
    | none => simp [Loader.loadedb] at hl
    | some p => rfl
  | other => simp [Loader.loadedb] at hl

lemma fsStage_parts (fault : Bool) (a b c d : List Record) :
    (fsStage fault a b c d).1
      = [Event.fsSaveText, Event.fsSaveLinks, Event.fsSaveImages,
         Event.fsSaveTables] ∧
    (fsStage fault a b c d).2.1 = none := by
  cases fault <;> cases h : buildImageFiles c <;>
    simp [fsStage, FileStorage.save_text, FileStorage.save_links,
      FileStorage.save_images, FileStorage.save_tables, h]

lemma fsStage_noFault (a b c d : List Record)
    (entries : List ((String × List Nat) × (String × String)))
    (he : buildImageFiles c = some entries) :
    fsStage false a b c d
      = ([Event.fsSaveText, Event.fsSaveLinks, Event.fsSaveImages,
          Event.fsSaveTables], none,
         { files := ("extracted_text.txt", textFileContent a)
             :: ("extracted_links.txt", linksFileContent b)
             :: (entries.map Prod.snd ++ tableFiles d),
           binfiles := entries.map Prod.fst }) := by
  simp [fsStage, FileStorage.save_text, FileStorage.save_links,
    FileStorage.save_images, FileStorage.save_tables, he]

lemma dbStage_ok (db0 : MySQLConn) (a b c d : List Record)
    (hc : ∀ i ∈ c, (Record.get i "image_data").isSome = true ∧
      (Record.get i "image_extension").isSome = true)
    (hd : ∀ i ∈ d, (Record.get i "table").isSome = true)
    (hpt : db0.text_data.pending = [])
    (hpi : db0.images_data.pending = [])
    (hptb : db0.tables_data.pending = [])
    (hpl : db0.links_data.pending = []) :
    dbStage { text := none, images := none, tables := none, links := none }
        db0 a b c d
      = ([Event.dbSaveText, Event.dbSaveImages, Event.dbSaveTables,
          Event.dbSaveLinks, Event.dbClose], none,
         { text_data :=
             { committed := db0.text_data.committed ++ a.map mysqlTextRow,
               pending := [] },
           images_data :=
             { committed := db0.images_data.committed ++ c.map mysqlImageRow,
               pending := [] },
           tables_data :=
             { committed := db0.tables_data.committed ++ d.map mysqlTableRow,
               pending := [] },
           links_data :=
             { committed := db0.links_data.committed ++ b.map mysqlLinkRow,
               pending := [] } }) := by
  have h1 := mysql_save_text_none db0 a hpt
  have h2 := mysql_save_images_none
    { text_data := { committed := db0.text_data.committed ++ a.map mysqlTextRow,
                     pending := [] },
      images_data := db0.images_data,
      tables_data := db0.tables_data,
      links_data := db0.links_data } c hc hpi
  have h3 := mysql_save_tables_none
    { text_data := { committed := db0.text_data.committed ++ a.map mysqlTextRow,
                     pending := [] },
      images_data := { committed := db0.images_data.committed ++ c.map mysqlImageRow,
                       pending := [] },
      tables_data := db0.tables_data,
      links_data := db0.links_data } d hd hptb
  have h4 := mysql_save_links_none
    { text_data := { committed := db0.text_data.committed ++ a.map mysqlTextRow,
                     pending := [] },
      images_data := { committed := db0.images_data.committed ++ c.map mysqlImageRow,
                       pending := [] },
      tables_data := { committed := db0.tables_data.committed ++ d.map mysqlTableRow,
                       pending := [] },
      links_data := db0.links_data } b hpl
  simp only [dbStage, h1, h2, h3, h4]

/-- C1: for every loaded document of a supported format, a fault-free
`process_file` run extracts all four content categories and saves every
one of them to both sinks: the file-system backend receives the text
file, the links file, the image (and metadata) files and the table
files, and all four MySQL tables are extended by exactly the rows
derived from the corresponding extracted records. -/
theorem process_file_saves_all_four (l : Loader) (db0 : MySQLConn)
    (hl : l.loadedb = true)
    (hpt : db0.text_data.pending = [])
    (hpi : db0.images_data.pending = [])
    (hptb : db0.tables_data.pending = [])
    (hpl : db0.links_data.pending = []) :
    ∃ entries, buildImageFiles (imagesOf l) = some entries ∧
      process_file noFaults l db0 =
        { trace := fullTrace,
          fs := { files := ("extracted_text.txt", textFileContent (textOf l))
                    :: ("extracted_links.txt", linksFileContent (linksOf l))
                    :: (entries.map Prod.snd ++ tableFiles (tablesOf l)),
                  binfiles := entries.map Prod.fst },
          db := { text_data :=
                    { committed := db0.text_data.committed
                        ++ (textOf l).map mysqlTextRow, pending := [] },
                  images_data :=
                    { committed := db0.images_data.committed
                        ++ (imagesOf l).map mysqlImageRow, pending := [] },
                  tables_data :=
                    { committed := db0.tables_data.committed
                        ++ (tablesOf l).map mysqlTableRow, pending := [] },
                  links_data :=
                    { committed := db0.links_data.committed
                        ++ (linksOf l).map mysqlLinkRow, pending := [] } },
          failure := none } := by
  obtain ⟨entries, he⟩ :=
    buildImageFilesFrom_some 0 (fun r hr => (imagesOf_shape l hl r hr).1)
  refine ⟨entries, he, ?_⟩
  have hext := extractAll_loaded l hl
  have hfs := fsStage_noFault (textOf l) (linksOf l) (imagesOf l) (tablesOf l)
    entries he
  have hdb := dbStage_ok db0 (textOf l) (linksOf l) (imagesOf l) (tablesOf l)
    (imagesOf_keys l hl) (tablesOf_shape l hl) hpt hpi hptb hpl
  simp only [noFaults] at hext
  simp only [process_file, noFaults, hext, hfs, hdb, fullTrace]
  rfl

/-- Witness for C1 on a loaded one-page PDF loader and an empty database. -/
theorem process_file_saves_all_four_witness :
    ∃ entries, buildImageFiles (imagesOf (Loader.pdf
        (some { pages := [{ text := "hi", links := [], images := [] }] })
        (some []) "f.pdf")) = some entries ∧
      process_file noFaults
        (Loader.pdf
          (some { pages := [{ text := "hi", links := [], images := [] }] })
          (some []) "f.pdf")
        { text_data := { committed := [], pending := [] },
          images_data := { committed := [], pending := [] },
          tables_data := { committed := [], pending := [] },
          links_data := { committed := [], pending := [] } }
      = { trace := fullTrace,
          fs := { files := ("extracted_text.txt", textFileContent (textOf (Loader.pdf
                      (some { pages := [{ text := "hi", links := [], images := [] }] })
                      (some []) "f.pdf")))
                    :: ("extracted_links.txt", linksFileContent (linksOf (Loader.pdf
                      (some { pages := [{ text := "hi", links := [], images := [] }] })
                      (some []) "f.pdf")))
                    :: (entries.map Prod.snd ++ tableFiles (tablesOf (Loader.pdf
                      (some { pages := [{ text := "hi", links := [], images := [] }] })
                      (some []) "f.pdf"))),
                  binfiles := entries.map Prod.fst },
          db := { text_data :=
                    { committed := (textOf (Loader.pdf
                        (some { pages := [{ text := "hi", links := [], images := [] }] })
                        (some []) "f.pdf")).map mysqlTextRow, pending := [] },
                  images_data :=
                    { committed := (imagesOf (Loader.pdf
                        (some { pages := [{ text := "hi", links := [], images := [] }] })
                        (some []) "f.pdf")).map mysqlImageRow, pending := [] },
                  tables_data :=
                    { committed := (tablesOf (Loader.pdf
                        (some { pages := [{ text := "hi", links := [], images := [] }] })
                        (some []) "f.pdf")).map mysqlTableRow, pending := [] },
                  links_data :=
                    { committed := (linksOf (Loader.pdf
                        (some { pages := [{ text := "hi", links := [], images := [] }] })
                        (some []) "f.pdf")).map mysqlLinkRow, pending := [] } },
          failure := none } :=
  process_file_saves_all_four
    (Loader.pdf (some { pages := [{ text := "hi", links := [], images := [] }] })
      (some []) "f.pdf")
    { text_data := { committed := [], pending := [] },
      images_data := { committed := [], pending := [] },
      tables_data := { committed := [], pending := [] },
      links_data := { committed := [], pending := [] } }
    (by decide) rfl rfl rfl rfl

lemma mysql_save_images_err_none (failAt : Option Nat) (conn : MySQLConn)
    (xs : List Record)
    (hkeys : ∀ i ∈ xs, (Record.get i "image_data").isSome = true ∧
      (Record.get i "image_extension").isSome = true) :
    (MySQLStorage.save_images failAt conn (PyArg.list xs)).1 = none := by
  have hb := buildImageRows_ok hkeys
  cases h : insertFrom failAt 0 (xs.map mysqlImageRow) conn.images_data <;>
    simp [MySQLStorage.save_images, hb, h]

lemma mysql_save_tables_err_none (failAt : Option Nat) (conn : MySQLConn)
    (xs : List Record)
    (hkeys : ∀ i ∈ xs, (Record.get i "table").isSome = true) :
    (MySQLStorage.save_tables failAt conn (PyArg.list xs)).1 = none := by
  have hloop := @tablesLoop_eq failAt xs 0 conn.tables_data hkeys
  cases h : insertFrom failAt 0 (xs.map mysqlTableRow) conn.tables_data <;>
    rw [h] at hloop <;>
    simp [MySQLStorage.save_tables, hloop, Except.mapError]

lemma dbStage_trace (f : DBFaults) (db0 : MySQLConn) (a b c d : List Record) :
    (dbStage f db0 a b c d).1 = [Event.dbSaveText, Event.dbSaveImages]
    ∨ (dbStage f db0 a b c d).1
        = [Event.dbSaveText, Event.dbSaveImages, Event.dbSaveTables]
    ∨ (dbStage f db0 a b c d).1
        = [Event.dbSaveText, Event.dbSaveImages, Event.dbSaveTables,
           Event.dbSaveLinks, Event.dbClose] := by
  rcases h1 : MySQLStorage.save_text f.text db0 (PyArg.list a) with ⟨e1, db1⟩
  have he1 : e1 = none := by
    have h := mysql_save_text_err_none f.text db0 a
    rw [h1] at h
    exact h
  subst he1
  rcases h2 : MySQLStorage.save_images f.images db1 (PyArg.list c) with ⟨e2, db2⟩
  cases e2 with
  | some e => left; simp [dbStage, h1, h2]
  | none =>
    rcases h3 : MySQLStorage.save_tables f.tables db2 (PyArg.list d) with ⟨e3, db3⟩
    cases e3 with
    | some e => right; left; simp [dbStage, h1, h2, h3]
    | none =>
      rcases h4 : MySQLStorage.save_links f.links db3 (PyArg.list b) with ⟨e4, db4⟩
      have he4 : e4 = none := by
        have h := mysql_save_links_err_none f.links db3 b
        rw [h4] at h
        exact h
      subst he4
      right; right; simp [dbStage, h1, h2, h3, h4]

lemma dbStage_trace_full (f : DBFaults) (db0 : MySQLConn) (a b c d : List Record)
    (hc : ∀ i ∈ c, (Record.get i "image_data").isSome = true ∧
      (Record.get i "image_extension").isSome = true)
    (hd : ∀ i ∈ d, (Record.get i "table").isSome = true) :
    (dbStage f db0 a b c d).1
      = [Event.dbSaveText, Event.dbSaveImages, Event.dbSaveTables,
         Event.dbSaveLinks, Event.dbClose] ∧
    (dbStage f db0 a b c d).2.1 = none := by
  rcases h1 : MySQLStorage.save_text f.text db0 (PyArg.list a) with ⟨e1, db1⟩
  have he1 : e1 = none := by
    have h := mysql_save_text_err_none f.text db0 a
    rw [h1] at h
    exact h
  subst he1
  rcases h2 : MySQLStorage.save_images f.images db1 (PyArg.list c) with ⟨e2, db2⟩
  have he2 : e2 = none := by
    have h := mysql_save_images_err_none f.images db1 c hc
    rw [h2] at h
    exact h
  subst he2
  rcases h3 : MySQLStorage.save_tables f.tables db2 (PyArg.list d) with ⟨e3, db3⟩
  have he3 : e3 = none := by
    have h := mysql_save_tables_err_none f.tables db2 d hd
    rw [h3] at h
    exact h
  subst he3
  rcases h4 : MySQLStorage.save_links f.links db3 (PyArg.list b) with ⟨e4, db4⟩
  have he4 : e4 = none := by
    have h := mysql_save_links_err_none f.links db3 b
    rw [h4] at h
    exact h
  subst he4
  constructor <;> simp [dbStage, h1, h2, h3, h4]

/-- C6: `process_file` orders its steps loader → extractor → storages.
In every run (whatever faults occur) the invocation trace is a prefix of
the canonical order — load, the four extractions, the four file-storage
saves, the four database saves, close — so no storage write ever
precedes the completion of extraction; and a fault-free run on a loaded
document performs exactly the canonical order. -/
theorem orchestration_order :
    (∀ (f : Faults) (l : Loader) (db0 : MySQLConn),
      ∃ rest, (process_file f l db0).trace ++ rest = fullTrace) ∧
    (∀ (l : Loader) (db0 : MySQLConn), l.loadedb = true →
      (process_file noFaults l db0).trace = fullTrace) := by
  constructor
  · intro f l db0
    cases hT : DataExtractor.extract_text f.text l with
    | error e =>
      exact ⟨[Event.extractLinks, Event.extractImages, Event.extractTables,
        Event.fsSaveText, Event.fsSaveLinks, Event.fsSaveImages, Event.fsSaveTables,
        Event.dbSaveText, Event.dbSaveImages, Event.dbSaveTables, Event.dbSaveLinks,
        Event.dbClose], by simp [process_file, extractAll, hT, fullTrace]⟩
    | ok td =>
    cases hL : DataExtractor.extract_links f.links l with
    | error e =>
      exact ⟨[Event.extractImages, Event.extractTables,
        Event.fsSaveText, Event.fsSaveLinks, Event.fsSaveImages, Event.fsSaveTables,
        Event.dbSaveText, Event.dbSaveImages, Event.dbSaveTables, Event.dbSaveLinks,
        Event.dbClose], by simp [process_file, extractAll, hT, hL, fullTrace]⟩
    | ok ld =>
    cases hI : DataExtractor.extract_images f.images l with
    | error e =>
      exact ⟨[Event.extractTables,
        Event.fsSaveText, Event.fsSaveLinks, Event.fsSaveImages, Event.fsSaveTables,
        Event.dbSaveText, Event.dbSaveImages, Event.dbSaveTables, Event.dbSaveLinks,
        Event.dbClose], by simp [process_file, extractAll, hT, hL, hI, fullTrace]⟩
    | ok imd =>
    cases hTb : DataExtractor.extract_tables f.tables l with
    | error e =>
      exact ⟨[Event.fsSaveText, Event.fsSaveLinks, Event.fsSaveImages,
        Event.fsSaveTables, Event.dbSaveText, Event.dbSaveImages, Event.dbSaveTables,
        Event.dbSaveLinks, Event.dbClose],
        by simp [process_file, extractAll, hT, hL, hI, hTb, fullTrace]⟩
    | ok tbd =>
    rcases hfs : fsStage f.fsFault td ld imd tbd with ⟨fevs, fe, fs1⟩
    have hfst := (fsStage_parts f.fsFault td ld imd tbd).1
    have hfse := (fsStage_parts f.fsFault td ld imd tbd).2
    rw [hfs] at hfst hfse
    simp only at hfst hfse
    subst hfst
    subst hfse
    cases hdbc : f.dbConnect with
    | true =>
      exact ⟨[Event.dbSaveText, Event.dbSaveImages, Event.dbSaveTables,
        Event.dbSaveLinks, Event.dbClose],
        by simp [process_file, extractAll, hT, hL, hI, hTb, hfs, hdbc, fullTrace]⟩
    | false =>
      rcases hdb : dbStage f.db db0 td ld imd tbd with ⟨devs, de, db1⟩
      rcases dbStage_trace f.db db0 td ld imd tbd with h | h | h
      · rw [hdb] at h
        simp only at h
        subst h
        cases de <;>
          exact ⟨[Event.dbSaveTables, Event.dbSaveLinks, Event.dbClose],
            by simp [process_file, extractAll, hT, hL, hI, hTb, hfs, hdbc, hdb,
              fullTrace]⟩
      · rw [hdb] at h
        simp only at h
        subst h
        cases de <;>
          exact ⟨[Event.dbSaveLinks, Event.dbClose],
            by simp [process_file, extractAll, hT, hL, hI, hTb, hfs, hdbc, hdb,
              fullTrace]⟩
      · rw [hdb] at h
        simp only at h
        subst h
        cases de <;>
          exact ⟨[],
            by simp [process_file, extractAll, hT, hL, hI, hTb, hfs, hdbc, hdb,
              fullTrace]⟩
  · intro l db0 hl
    have hext := extractAll_loaded l hl
    simp only [noFaults] at hext
    rcases hfs : fsStage false (textOf l) (linksOf l) (imagesOf l) (tablesOf l)
      with ⟨fevs, fe, fs1⟩
    have hfst := (fsStage_parts false (textOf l) (linksOf l) (imagesOf l) (tablesOf l)).1
    have hfse := (fsStage_parts false (textOf l) (linksOf l) (imagesOf l) (tablesOf l)).2
    rw [hfs] at hfst hfse
    simp only at hfst hfse
    subst hfst
    subst hfse
    rcases hdb : dbStage { text := none, images := none, tables := none, links := none }
        db0 (textOf l) (linksOf l) (imagesOf l) (tablesOf l) with ⟨devs, de, db1⟩
    have hdt := (dbStage_trace_full
      { text := none, images := none, tables := none, links := none }
      db0 (textOf l) (linksOf l) (imagesOf l) (tablesOf l)
      (imagesOf_keys l hl) (tablesOf_shape l hl)).1
    have hde := (dbStage_trace_full
      { text := none, images := none, tables := none, links := none }
      db0 (textOf l) (linksOf l) (imagesOf l) (tablesOf l)
      (imagesOf_keys l hl) (tablesOf_shape l hl)).2
    rw [hdb] at hdt hde
    simp only at hdt hde
    subst hdt
    subst hde
    simp [process_file, noFaults, hext, hfs, hdb, fullTrace]

/-- Witness for C6 on a loaded one-page PDF loader and an empty database. -/
theorem orchestration_order_witness :
    (process_file noFaults
      (Loader.pdf (some { pages := [{ text := "hi", links := [], images := [] }] })
        (some []) "f.pdf")
      { text_data := { committed := [], pending := [] },
        images_data := { committed := [], pending := [] },
        tables_data := { committed := [], pending := [] },
        links_data := { committed := [], pending := [] } }).trace = fullTrace :=
  orchestration_order.2
    (Loader.pdf (some { pages := [{ text := "hi", links := [], images := [] }] })
      (some []) "f.pdf")
    { text_data := { committed := [], pending := [] },
      images_data := { committed := [], pending := [] },
      tables_data := { committed := [], pending := [] },
      links_data := { committed := [], pending := [] } }
    (by decide)
